import Mathlib

set_option maxHeartbeats 1000000
set_option maxRecDepth 10000

/-!
Verification development for the `dream_case` analytics repository.

The repository consists of:
* `src/bq_manager.py` — class `BQManager`, holding a BigQuery client and one
  lazily-populated cache field per named query (ten getters);
* `src/q1.py` — module-level query functions (same ten queries) plus dashboard glue;
* `src/DreamGamesAnalytics.py` — class with a `_run_query` helper and many getters;
* `src/ml_utils.py` and `src/q3/ml_utils.py` — `load_data` and `get_X_y`
  feature-engineering functions over pandas dataframes.

Modelling choices:
* The remote BigQuery client is a deterministic function from the query string to
  either a tabular result (`Except.ok`) or a raised exception (`Except.error`).
* A pandas dataframe is a list of rows; a row is an association list from column
  name to a scalar value.  A scalar is `Option ℚ`: `none` models a missing value
  (`NaN`), `some q` a finite numeric value.  String-typed scalars do not take part
  in any computation verified here and are out of the modelled value domain.
* In-place mutation of dataframes is made explicit, where needed, by a heap of
  dataframes indexed by references (`Heap`, `Ref` below).
-/

/-- A remote data-source client: maps a query string to a tabular result
(`Except.ok`) or to a raised exception (`Except.error msg`).  This models
`self.client.query(q).result().to_dataframe()` in the Python sources. -/
def Client (α : Type) : Type := String → Except String α

/-- Query text of `BQManager.get_total_dau` in src/bq_manager.py (exact string). -/
def bqTotalDauQuery : String := "\n            SELECT DATE(event_time) AS date,\n                   COUNT(DISTINCT user_id) AS dau\n            FROM `casedreamgames.case_db.q1_table_session`\n            GROUP BY date\n            ORDER BY date;\n            "

/-- Query text of `BQManager.get_dau_by_platform` in src/bq_manager.py (exact string). -/
def bqDauByPlatformQuery : String := "\n            SELECT DATE(event_time) AS date,\n                   platform,\n                   COUNT(DISTINCT user_id) AS dau\n            FROM `casedreamgames.case_db.q1_table_session`\n            GROUP BY date, platform\n            ORDER BY platform, date;\n            "

/-- Query text of `BQManager.get_overall_arpdau` in src/bq_manager.py (exact string). -/
def bqOverallArpdauQuery : String := "\n            WITH daily_revenue AS (\n              SELECT DATE(event_time) AS date, \n                     SUM(CAST(revenue AS FLOAT64)) AS total_revenue\n              FROM `casedreamgames.case_db.q1_table_revenue`\n              GROUP BY date\n            ),\n            daily_active AS (\n              SELECT DATE(event_time) AS date, \n                     COUNT(DISTINCT user_id) AS dau\n              FROM `casedreamgames.case_db.q1_table_session`\n              GROUP BY date\n            )\n            SELECT dr.date,\n                   dr.total_revenue / da.dau AS arpdau\n            FROM daily_revenue dr\n            JOIN daily_active da ON dr.date = da.date\n            ORDER BY dr.date;\n            "

/-- Query text of `BQManager.get_arpdau_by_platform` in src/bq_manager.py (exact string). -/
def bqArpdauByPlatformQuery : String := "\n            WITH revenue_platform AS (\n              SELECT DATE(event_time) AS date, \n                     platform, \n                     SUM(CAST(revenue AS FLOAT64)) AS total_revenue\n              FROM `casedreamgames.case_db.q1_table_revenue`\n              GROUP BY date, platform\n            ),\n            dau_platform AS (\n              SELECT DATE(event_time) AS date, \n                     platform, \n                     COUNT(DISTINCT user_id) AS dau\n              FROM `casedreamgames.case_db.q1_table_session`\n              GROUP BY date, platform\n            )\n            SELECT r.platform,\n                   r.date,\n                   r.total_revenue / d.dau AS arpdau\n            FROM revenue_platform r\n            JOIN dau_platform d ON r.date = d.date AND r.platform = d.platform\n            ORDER BY r.platform, r.date;\n            "

/-- Query text of `BQManager.get_arpdau_by_package_type` in src/bq_manager.py (exact string). -/
def bqArpdauByPackageTypeQuery : String := "\n            WITH daily_package_revenue AS (\n              SELECT package_type,\n                     DATE(event_time) AS date,\n                     SUM(CAST(revenue AS FLOAT64)) AS total_revenue,\n                     COUNT(DISTINCT user_id) AS purchasing_users\n              FROM `casedreamgames.case_db.q1_table_revenue`\n              GROUP BY package_type, date\n            )\n            SELECT package_type,\n                   date,\n                   total_revenue / purchasing_users AS arpdau\n            FROM daily_package_revenue\n            ORDER BY package_type, date;\n            "

/-- Query text of `BQManager.get_overall_retention` in src/bq_manager.py (exact string). -/
def bqOverallRetentionQuery : String := "\n            WITH installs AS (\n              SELECT user_id, DATE(event_time) AS install_date\n              FROM `casedreamgames.case_db.q1_table_install`\n            ),\n            next_day_sessions AS (\n              SELECT user_id, DATE(event_time) AS session_date\n              FROM `casedreamgames.case_db.q1_table_session`\n            )\n            SELECT i.install_date,\n                   COUNT(DISTINCT i.user_id) AS installs,\n                   COUNT(DISTINCT n.user_id) AS retained_users,\n                   COUNT(DISTINCT n.user_id) / COUNT(DISTINCT i.user_id) AS retention_rate\n            FROM installs i\n            LEFT JOIN next_day_sessions n \n              ON i.user_id = n.user_id \n              AND n.session_date = DATE_ADD(i.install_date, INTERVAL 1 DAY)\n            GROUP BY i.install_date\n            ORDER BY i.install_date;\n            "

/-- Query text of `BQManager.get_retention_by_platform` in src/bq_manager.py (exact string). -/
def bqRetentionByPlatformQuery : String := "\n            WITH installs AS (\n              SELECT user_id, platform, DATE(event_time) AS install_date\n              FROM `casedreamgames.case_db.q1_table_install`\n            ),\n            next_day_sessions AS (\n              SELECT user_id, DATE(event_time) AS session_date\n              FROM `casedreamgames.case_db.q1_table_session`\n            )\n            SELECT i.platform,\n                   i.install_date,\n                   COUNT(DISTINCT i.user_id) AS installs,\n                   COUNT(DISTINCT n.user_id) AS retained_users,\n                   COUNT(DISTINCT n.user_id) / COUNT(DISTINCT i.user_id) AS retention_rate\n            FROM installs i\n            LEFT JOIN next_day_sessions n \n              ON i.user_id = n.user_id \n              AND n.session_date = DATE_ADD(i.install_date, INTERVAL 1 DAY)\n            GROUP BY i.platform, i.install_date\n            ORDER BY i.platform, i.install_date;\n            "

/-- Query text of `BQManager.get_overall_roas` in src/bq_manager.py (exact string). -/
def bqOverallRoasQuery : String := "\n            WITH daily_revenue AS (\n              SELECT DATE(event_time) AS date,\n                     SUM(CAST(revenue AS FLOAT64)) AS total_revenue\n              FROM `casedreamgames.case_db.q1_table_revenue`\n              GROUP BY date\n            ),\n            daily_cost AS (\n              SELECT date, SUM(cost) AS total_cost\n              FROM `casedreamgames.case_db.q1_table_cost`\n              GROUP BY date\n            )\n            SELECT r.date,\n                   r.total_revenue,\n                   c.total_cost,\n                   r.total_revenue / c.total_cost AS roas\n            FROM daily_revenue r\n            JOIN daily_cost c ON r.date = c.date\n            ORDER BY r.date;\n            "

/-- Query text of `BQManager.get_roas_by_platform` in src/bq_manager.py (exact string). -/
def bqRoasByPlatformQuery : String := "\n            WITH daily_revenue AS (\n              SELECT DATE(event_time) AS date, platform,\n                     SUM(CAST(revenue AS FLOAT64)) AS total_revenue\n              FROM `casedreamgames.case_db.q1_table_revenue`\n              GROUP BY date, platform\n            ),\n            daily_cost AS (\n              SELECT date, SUM(cost) AS total_cost\n              FROM `casedreamgames.case_db.q1_table_cost`\n              GROUP BY date\n            )\n            SELECT r.platform,\n                   r.date,\n                   r.total_revenue,\n                   c.total_cost,\n                   r.total_revenue / c.total_cost AS roas\n            FROM daily_revenue r\n            JOIN daily_cost c ON r.date = c.date\n            ORDER BY r.platform, r.date;\n            "

/-- Query text of `BQManager.get_roas_by_package_type` in src/bq_manager.py (exact string). -/
def bqRoasByPackageTypeQuery : String := "\n            WITH daily_revenue AS (\n              SELECT DATE(event_time) AS date, package_type,\n                     SUM(CAST(revenue AS FLOAT64)) AS total_revenue\n              FROM `casedreamgames.case_db.q1_table_revenue`\n              GROUP BY date, package_type\n            ),\n            daily_cost AS (\n              SELECT date, SUM(cost) AS total_cost\n              FROM `casedreamgames.case_db.q1_table_cost`\n              GROUP BY date\n            )\n            SELECT r.package_type,\n                   r.date,\n                   r.total_revenue,\n                   c.total_cost,\n                   r.total_revenue / c.total_cost AS roas\n            FROM daily_revenue r\n            JOIN daily_cost c ON r.date = c.date\n            ORDER BY r.package_type, r.date;\n            "

/-- Query text of module-level `get_total_dau` in src/q1.py (exact string). -/
def q1TotalDauQuery : String := "\n    SELECT DATE(event_time) AS date,\n           COUNT(DISTINCT user_id) AS dau\n    FROM `casedreamgames.case_db.q1_table_session`\n    GROUP BY date\n    ORDER BY date;\n    "

/-- Query text of module-level `get_dau_by_platform` in src/q1.py (exact string). -/
def q1DauByPlatformQuery : String := "\n    SELECT DATE(event_time) AS date,\n           platform,\n           COUNT(DISTINCT user_id) AS dau\n    FROM `casedreamgames.case_db.q1_table_session`\n    GROUP BY date, platform\n    ORDER BY platform, date;\n    "

/-- Query text of module-level `get_overall_arpdau` in src/q1.py (exact string). -/
def q1OverallArpdauQuery : String := "\n    WITH daily_revenue AS (\n      SELECT DATE(event_time) AS date, SUM(CAST(revenue AS FLOAT64)) AS total_revenue\n      FROM `casedreamgames.case_db.q1_table_revenue`\n      GROUP BY date\n    ),\n    daily_active AS (\n      SELECT DATE(event_time) AS date, COUNT(DISTINCT user_id) AS dau\n      FROM `casedreamgames.case_db.q1_table_session`\n      GROUP BY date\n    )\n    SELECT dr.date,\n           dr.total_revenue / da.dau AS arpdau\n    FROM daily_revenue dr\n    JOIN daily_active da ON dr.date = da.date\n    ORDER BY dr.date;\n    "

/-- Query text of module-level `get_arpdau_by_platform` in src/q1.py (exact string). -/
def q1ArpdauByPlatformQuery : String := "\n    WITH revenue_platform AS (\n      SELECT DATE(event_time) AS date, platform, SUM(CAST(revenue AS FLOAT64)) AS total_revenue\n      FROM `casedreamgames.case_db.q1_table_revenue`\n      GROUP BY date, platform\n    ),\n    dau_platform AS (\n      SELECT DATE(event_time) AS date, platform, COUNT(DISTINCT user_id) AS dau\n      FROM `casedreamgames.case_db.q1_table_session`\n      GROUP BY date, platform\n    )\n    SELECT r.platform,\n           r.date,\n           r.total_revenue / d.dau AS arpdau\n    FROM revenue_platform r\n    JOIN dau_platform d ON r.date = d.date AND r.platform = d.platform\n    ORDER BY r.platform, r.date;\n    "

/-- Query text of module-level `get_arpdau_by_package_type` in src/q1.py (exact string). -/
def q1ArpdauByPackageTypeQuery : String := "\n    WITH daily_package_revenue AS (\n      SELECT package_type,\n             DATE(event_time) AS date,\n             SUM(CAST(revenue AS FLOAT64)) AS total_revenue,\n             COUNT(DISTINCT user_id) AS purchasing_users\n      FROM `casedreamgames.case_db.q1_table_revenue`\n      GROUP BY package_type, date\n    )\n    SELECT package_type,\n           date,\n           total_revenue / purchasing_users AS arpdau\n    FROM daily_package_revenue\n    ORDER BY package_type, date;\n    "

/-- Query text of module-level `get_overall_retention` in src/q1.py (exact string). -/
def q1OverallRetentionQuery : String := "\n    WITH installs AS (\n      SELECT user_id, DATE(event_time) AS install_date\n      FROM `casedreamgames.case_db.q1_table_install`\n    ),\n    next_day_sessions AS (\n      SELECT user_id, DATE(event_time) AS session_date\n      FROM `casedreamgames.case_db.q1_table_session`\n    )\n    SELECT i.install_date,\n           COUNT(DISTINCT i.user_id) AS installs,\n           COUNT(DISTINCT n.user_id) AS retained_users,\n           COUNT(DISTINCT n.user_id) / COUNT(DISTINCT i.user_id) AS retention_rate\n    FROM installs i\n    LEFT JOIN next_day_sessions n \n      ON i.user_id = n.user_id \n      AND n.session_date = DATE_ADD(i.install_date, INTERVAL 1 DAY)\n    GROUP BY i.install_date\n    ORDER BY i.install_date;\n    "

/-- Query text of module-level `get_retention_by_platform` in src/q1.py (exact string). -/
def q1RetentionByPlatformQuery : String := "\n    WITH installs AS (\n      SELECT user_id, platform, DATE(event_time) AS install_date\n      FROM `casedreamgames.case_db.q1_table_install`\n    ),\n    next_day_sessions AS (\n      SELECT user_id, DATE(event_time) AS session_date\n      FROM `casedreamgames.case_db.q1_table_session`\n    )\n    SELECT i.platform,\n           i.install_date,\n           COUNT(DISTINCT i.user_id) AS installs,\n           COUNT(DISTINCT n.user_id) AS retained_users,\n           COUNT(DISTINCT n.user_id) / COUNT(DISTINCT i.user_id) AS retention_rate\n    FROM installs i\n    LEFT JOIN next_day_sessions n \n      ON i.user_id = n.user_id \n      AND n.session_date = DATE_ADD(i.install_date, INTERVAL 1 DAY)\n    GROUP BY i.platform, i.install_date\n    ORDER BY i.platform, i.install_date;\n    "

/-- Query text of module-level `get_overall_roas` in src/q1.py (exact string). -/
def q1OverallRoasQuery : String := "\n    WITH daily_revenue AS (\n      SELECT DATE(event_time) AS date,\n             SUM(CAST(revenue AS FLOAT64)) AS total_revenue\n      FROM `casedreamgames.case_db.q1_table_revenue`\n      GROUP BY date\n    ),\n    daily_cost AS (\n      SELECT date, SUM(cost) AS total_cost\n      FROM `casedreamgames.case_db.q1_table_cost`\n      GROUP BY date\n    )\n    SELECT r.date,\n           r.total_revenue,\n           c.total_cost,\n           r.total_revenue / c.total_cost AS roas\n    FROM daily_revenue r\n    JOIN daily_cost c ON r.date = c.date\n    ORDER BY r.date;\n    "

/-- Query text of module-level `get_roas_by_platform` in src/q1.py (exact string). -/
def q1RoasByPlatformQuery : String := "\n    WITH daily_revenue AS (\n      SELECT DATE(event_time) AS date, platform,\n             SUM(CAST(revenue AS FLOAT64)) AS total_revenue\n      FROM `casedreamgames.case_db.q1_table_revenue`\n      GROUP BY date, platform\n    ),\n    daily_cost AS (\n      SELECT date, SUM(cost) AS total_cost\n      FROM `casedreamgames.case_db.q1_table_cost`\n      GROUP BY date\n    )\n    SELECT r.platform,\n           r.date,\n           r.total_revenue,\n           c.total_cost,\n           r.total_revenue / c.total_cost AS roas\n    FROM daily_revenue r\n    JOIN daily_cost c ON r.date = c.date\n    ORDER BY r.platform, r.date;\n    "

/-- Query text of module-level `get_roas_by_package_type` in src/q1.py (exact string). -/
def q1RoasByPackageTypeQuery : String := "\n    WITH daily_revenue AS (\n      SELECT DATE(event_time) AS date, package_type,\n             SUM(CAST(revenue AS FLOAT64)) AS total_revenue\n      FROM `casedreamgames.case_db.q1_table_revenue`\n      GROUP BY date, package_type\n    ),\n    daily_cost AS (\n      SELECT date, SUM(cost) AS total_cost\n      FROM `casedreamgames.case_db.q1_table_cost`\n      GROUP BY date\n    )\n    SELECT r.package_type,\n           r.date,\n           r.total_revenue,\n           c.total_cost,\n           r.total_revenue / c.total_cost AS roas\n    FROM daily_revenue r\n    JOIN daily_cost c ON r.date = c.date\n    ORDER BY r.package_type, r.date;\n    "

/-- Query text of `load_data` in src/ml_utils.py and src/q3/ml_utils.py (exact string). -/
def q3UserMetricsQuery : String := "\n    SELECT *\n    FROM `casedreamgames.case_db.q3_table_user_metrics`\n    "

/-- State of a `BQManager` instance (src/bq_manager.py, `__init__`): one cache
field per named query, each initialised to `None`.  The BigQuery client created
in `__init__` is modelled separately as a `Client` value passed to each getter,
since it is fixed for the lifetime of the instance. -/
structure BQManager (α : Type) where
  total_dau_df : Option α
  dau_by_platform_df : Option α
  overall_arpdau_df : Option α
  arpdau_by_platform_df : Option α
  arpdau_by_package_type_df : Option α
  overall_retention_df : Option α
  retention_by_platform_df : Option α
  overall_roas_df : Option α
  roas_by_platform_df : Option α
  roas_by_package_type_df : Option α

/-- The state of a fresh `BQManager` instance: every cache field is `None`
(src/bq_manager.py lines 9–18). -/
def BQManager.init {α : Type} : BQManager α :=
  { total_dau_df := none
    dau_by_platform_df := none
    overall_arpdau_df := none
    arpdau_by_platform_df := none
    arpdau_by_package_type_df := none
    overall_retention_df := none
    retention_by_platform_df := none
    overall_roas_df := none
    roas_by_platform_df := none
    roas_by_package_type_df := none }

/-- Result of one getter call: the value returned to the caller (`Except.ok`) or
the exception propagated to it (`Except.error`), the state of the instance after
the call, and the list of query strings issued to the client during the call. -/
structure StepResult (α : Type) where
  result : Except String α
  state : BQManager α
  issued : List String

/-- `BQManager.get_total_dau` (src/bq_manager.py lines 20–30): if the cache field
is populated, return it without touching the client; otherwise issue the query and,
on success, store the result in the cache field; a raised exception leaves the
state unchanged. -/
def BQManager.get_total_dau {α : Type} (client : Client α) (s : BQManager α) :
    StepResult α :=
  match s.total_dau_df with
  | some df => ⟨Except.ok df, s, []⟩
  | none =>
    match client bqTotalDauQuery with
    | Except.ok df => ⟨Except.ok df, { s with total_dau_df := some df }, [bqTotalDauQuery]⟩
    | Except.error e => ⟨Except.error e, s, [bqTotalDauQuery]⟩

/-- `BQManager.get_dau_by_platform` (src/bq_manager.py lines 32–43). -/
def BQManager.get_dau_by_platform {α : Type} (client : Client α) (s : BQManager α) :
    StepResult α :=
  match s.dau_by_platform_df with
  | some df => ⟨Except.ok df, s, []⟩
  | none =>
    match client bqDauByPlatformQuery with
    | Except.ok df => ⟨Except.ok df, { s with dau_by_platform_df := some df }, [bqDauByPlatformQuery]⟩
    | Except.error e => ⟨Except.error e, s, [bqDauByPlatformQuery]⟩

/-- `BQManager.get_overall_arpdau` (src/bq_manager.py lines 45–67). -/
def BQManager.get_overall_arpdau {α : Type} (client : Client α) (s : BQManager α) :
    StepResult α :=
  match s.overall_arpdau_df with
  | some df => ⟨Except.ok df, s, []⟩
  | none =>
    match client bqOverallArpdauQuery with
    | Except.ok df => ⟨Except.ok df, { s with overall_arpdau_df := some df }, [bqOverallArpdauQuery]⟩
    | Except.error e => ⟨Except.error e, s, [bqOverallArpdauQuery]⟩

/-- `BQManager.get_arpdau_by_platform` (src/bq_manager.py lines 69–94). -/
def BQManager.get_arpdau_by_platform {α : Type} (client : Client α) (s : BQManager α) :
    StepResult α :=
  match s.arpdau_by_platform_df with
  | some df => ⟨Except.ok df, s, []⟩
  | none =>
    match client bqArpdauByPlatformQuery with
    | Except.ok df => ⟨Except.ok df, { s with arpdau_by_platform_df := some df }, [bqArpdauByPlatformQuery]⟩
    | Except.error e => ⟨Except.error e, s, [bqArpdauByPlatformQuery]⟩

/-- `BQManager.get_arpdau_by_package_type` (src/bq_manager.py lines 96–114). -/
def BQManager.get_arpdau_by_package_type {α : Type} (client : Client α) (s : BQManager α) :
    StepResult α :=
  match s.arpdau_by_package_type_df with
  | some df => ⟨Except.ok df, s, []⟩
  | none =>
    match client bqArpdauByPackageTypeQuery with
    | Except.ok df => ⟨Except.ok df, { s with arpdau_by_package_type_df := some df }, [bqArpdauByPackageTypeQuery]⟩
    | Except.error e => ⟨Except.error e, s, [bqArpdauByPackageTypeQuery]⟩

/-- `BQManager.get_overall_retention` (src/bq_manager.py lines 116–139). -/
def BQManager.get_overall_retention {α : Type} (client : Client α) (s : BQManager α) :
    StepResult α :=
  match s.overall_retention_df with
  | some df => ⟨Except.ok df, s, []⟩
  | none =>
    match client bqOverallRetentionQuery with
    | Except.ok df => ⟨Except.ok df, { s with overall_retention_df := some df }, [bqOverallRetentionQuery]⟩
    | Except.error e => ⟨Except.error e, s, [bqOverallRetentionQuery]⟩

/-- `BQManager.get_retention_by_platform` (src/bq_manager.py lines 141–165). -/
def BQManager.get_retention_by_platform {α : Type} (client : Client α) (s : BQManager α) :
    StepResult α :=
  match s.retention_by_platform_df with
  | some df => ⟨Except.ok df, s, []⟩
  | none =>
    match client bqRetentionByPlatformQuery with
    | Except.ok df => ⟨Except.ok df, { s with retention_by_platform_df := some df }, [bqRetentionByPlatformQuery]⟩
    | Except.error e => ⟨Except.error e, s, [bqRetentionByPlatformQuery]⟩

/-- `BQManager.get_overall_roas` (src/bq_manager.py lines 167–190). -/
def BQManager.get_overall_roas {α : Type} (client : Client α) (s : BQManager α) :
    StepResult α :=
  match s.overall_roas_df with
  | some df => ⟨Except.ok df, s, []⟩
  | none =>
    match client bqOverallRoasQuery with
    | Except.ok df => ⟨Except.ok df, { s with overall_roas_df := some df }, [bqOverallRoasQuery]⟩
    | Except.error e => ⟨Except.error e, s, [bqOverallRoasQuery]⟩

/-- `BQManager.get_roas_by_platform` (src/bq_manager.py lines 192–216). -/
def BQManager.get_roas_by_platform {α : Type} (client : Client α) (s : BQManager α) :
    StepResult α :=
  match s.roas_by_platform_df with
  | some df => ⟨Except.ok df, s, []⟩
  | none =>
    match client bqRoasByPlatformQuery with
    | Except.ok df => ⟨Except.ok df, { s with roas_by_platform_df := some df }, [bqRoasByPlatformQuery]⟩
    | Except.error e => ⟨Except.error e, s, [bqRoasByPlatformQuery]⟩

/-- `BQManager.get_roas_by_package_type` (src/bq_manager.py lines 218–242). -/
def BQManager.get_roas_by_package_type {α : Type} (client : Client α) (s : BQManager α) :
    StepResult α :=
  match s.roas_by_package_type_df with
  | some df => ⟨Except.ok df, s, []⟩
  | none =>
    match client bqRoasByPackageTypeQuery with
    | Except.ok df => ⟨Except.ok df, { s with roas_by_package_type_df := some df }, [bqRoasByPackageTypeQuery]⟩
    | Except.error e => ⟨Except.error e, s, [bqRoasByPackageTypeQuery]⟩

/-- The ten named queries of `BQManager` / src/q1.py. -/
inductive QName where
  | total_dau
  | dau_by_platform
  | overall_arpdau
  | arpdau_by_platform
  | arpdau_by_package_type
  | overall_retention
  | retention_by_platform
  | overall_roas
  | roas_by_platform
  | roas_by_package_type
  deriving DecidableEq, Repr

/-- Dispatch from a query name to the corresponding `BQManager` getter. -/
def BQManager.getter {α : Type} : QName → Client α → BQManager α → StepResult α
  | QName.total_dau => BQManager.get_total_dau
  | QName.dau_by_platform => BQManager.get_dau_by_platform
  | QName.overall_arpdau => BQManager.get_overall_arpdau
  | QName.arpdau_by_platform => BQManager.get_arpdau_by_platform
  | QName.arpdau_by_package_type => BQManager.get_arpdau_by_package_type
  | QName.overall_retention => BQManager.get_overall_retention
  | QName.retention_by_platform => BQManager.get_retention_by_platform
  | QName.overall_roas => BQManager.get_overall_roas
  | QName.roas_by_platform => BQManager.get_roas_by_platform
  | QName.roas_by_package_type => BQManager.get_roas_by_package_type

/-- The cache field of a `BQManager` state associated with a query name. -/
def BQManager.cacheField {α : Type} : QName → BQManager α → Option α
  | QName.total_dau, s => s.total_dau_df
  | QName.dau_by_platform, s => s.dau_by_platform_df
  | QName.overall_arpdau, s => s.overall_arpdau_df
  | QName.arpdau_by_platform, s => s.arpdau_by_platform_df
  | QName.arpdau_by_package_type, s => s.arpdau_by_package_type_df
  | QName.overall_retention, s => s.overall_retention_df
  | QName.retention_by_platform, s => s.retention_by_platform_df
  | QName.overall_roas, s => s.overall_roas_df
  | QName.roas_by_platform, s => s.roas_by_platform_df
  | QName.roas_by_package_type, s => s.roas_by_package_type_df

/-- Writing a fetched result into the cache field associated with a query name. -/
def BQManager.writeField {α : Type} : QName → α → BQManager α → BQManager α
  | QName.total_dau, df, s => { s with total_dau_df := some df }
  | QName.dau_by_platform, df, s => { s with dau_by_platform_df := some df }
  | QName.overall_arpdau, df, s => { s with overall_arpdau_df := some df }
  | QName.arpdau_by_platform, df, s => { s with arpdau_by_platform_df := some df }
  | QName.arpdau_by_package_type, df, s => { s with arpdau_by_package_type_df := some df }
  | QName.overall_retention, df, s => { s with overall_retention_df := some df }
  | QName.retention_by_platform, df, s => { s with retention_by_platform_df := some df }
  | QName.overall_roas, df, s => { s with overall_roas_df := some df }
  | QName.roas_by_platform, df, s => { s with roas_by_platform_df := some df }
  | QName.roas_by_package_type, df, s => { s with roas_by_package_type_df := some df }

/-- The query string submitted by the `BQManager` getter of a given name. -/
def bqQueryOf : QName → String
  | QName.total_dau => bqTotalDauQuery
  | QName.dau_by_platform => bqDauByPlatformQuery
  | QName.overall_arpdau => bqOverallArpdauQuery
  | QName.arpdau_by_platform => bqArpdauByPlatformQuery
  | QName.arpdau_by_package_type => bqArpdauByPackageTypeQuery
  | QName.overall_retention => bqOverallRetentionQuery
  | QName.retention_by_platform => bqRetentionByPlatformQuery
  | QName.overall_roas => bqOverallRoasQuery
  | QName.roas_by_platform => bqRoasByPlatformQuery
  | QName.roas_by_package_type => bqRoasByPackageTypeQuery

/-- Query text of `DreamGamesAnalytics.get_dau_trend` in src/DreamGamesAnalytics.py
(exact string). -/
def dauTrendQuery : String := "\n        SELECT\n          DATE(event_time) AS date,\n          COUNT(DISTINCT user_id) AS dau\n        FROM `casedreamgames.case_db.q1_table_session`\n        GROUP BY date\n        ORDER BY date\n        "

/-- `DreamGamesAnalytics._run_query` (src/DreamGamesAnalytics.py lines 12–13):
`return self.client.query(query).result().to_dataframe()`.  There is no
try/except anywhere in the class, so a raised exception propagates unchanged to
the caller. -/
def DreamGamesAnalytics.run_query {α : Type} (client : Client α) (query : String) :
    Except String α :=
  client query

/-- `DreamGamesAnalytics.get_dau_trend` (src/DreamGamesAnalytics.py lines 18–30). -/
def DreamGamesAnalytics.get_dau_trend {α : Type} (client : Client α) : Except String α :=
  DreamGamesAnalytics.run_query client dauTrendQuery

/-- Calling the getter named `q` repeatedly in sequence on one instance: returns
the list of results observed by the caller, the final state, and the concatenated
list of queries issued to the client. -/
def BQManager.iterateGet {α : Type} (q : QName) (client : Client α) :
    Nat → BQManager α → List (Except String α) × BQManager α × List String
  | 0, s => ([], s, [])
  | n + 1, s =>
    let r := BQManager.getter q client s
    let rest := BQManager.iterateGet q client n r.state
    (r.result :: rest.1, rest.2.1, r.issued ++ rest.2.2)

/-- An arbitrary sequence of getter calls, each step with its own client behaviour
(the remote source may answer differently at different times). -/
def BQManager.runTrace {α : Type} : List (QName × Client α) → BQManager α → BQManager α
  | [], s => s
  | (q, c) :: ops, s => BQManager.runTrace ops ((BQManager.getter q c s).state)

/-- A client that always succeeds with a fixed value (used in concrete checks). -/
def okClientNat (v : Nat) : Client Nat := fun _ => Except.ok v

/-- A client that always raises (used in concrete checks). -/
def errClientNat (e : String) : Client Nat := fun _ => Except.error e

/-- Thread-local state of one in-flight getter call in the interleaving model of
the unsynchronised Python code: `start` — the call has not yet performed its
cache check; `inflight` — the check saw an empty cache field and the query has
been issued, the thread is blocked on the remote call; `done r` — the call
returned `r`.  The cache check and the cache write each happen atomically (under
the interpreter lock); the blocking remote call between them is where the other
thread can run. -/
inductive TState (α : Type) where
  | start
  | inflight
  | done (r : Except String α)

/-- Identifier of one of the two concurrent callers. -/
inductive ThreadId where
  | A
  | B
  deriving DecidableEq

/-- Shared state of two threads concurrently calling the getter named `q` on one
`BQManager` instance: the shared cache, both thread states, and the global log of
queries issued to the data source. -/
structure ConcSys (α : Type) where
  cache : BQManager α
  a : TState α
  b : TState α
  issued : List String

/-- Initial concurrent state: fresh instance, both calls about to run. -/
def ConcSys.init {α : Type} : ConcSys α :=
  ⟨BQManager.init, TState.start, TState.start, []⟩

/-- One atomic step of a single thread running the getter named `q` against
client behaviour `c`: the cache check (`start`), or the completion of the remote
call (`inflight`), which writes the cache field unconditionally, exactly as
`self.total_dau_df = self.client.query(query).result().to_dataframe()` does. -/
def threadStep {α : Type} (q : QName) (c : Client α) (t : TState α)
    (cache : BQManager α) (issued : List String) :
    TState α × BQManager α × List String :=
  match t with
  | TState.start =>
    match BQManager.cacheField q cache with
    | some df => (TState.done (Except.ok df), cache, issued)
    | none => (TState.inflight, cache, issued ++ [bqQueryOf q])
  | TState.inflight =>
    match c (bqQueryOf q) with
    | Except.ok df =>
        (TState.done (Except.ok df), BQManager.writeField q df cache, issued)
    | Except.error e => (TState.done (Except.error e), cache, issued)
  | TState.done r => (TState.done r, cache, issued)

/-- Scheduler step: run one atomic step of the chosen thread.  Each thread has
its own client behaviour (`ca`, `cb`): the remote source may answer the two
in-flight calls differently. -/
def schedStep {α : Type} (q : QName) (ca cb : Client α) (s : ConcSys α) :
    ThreadId → ConcSys α
  | ThreadId.A =>
    let r := threadStep q ca s.a s.cache s.issued
    { s with a := r.1, cache := r.2.1, issued := r.2.2 }
  | ThreadId.B =>
    let r := threadStep q cb s.b s.cache s.issued
    { s with b := r.1, cache := r.2.1, issued := r.2.2 }

/-- Run a whole schedule (a list of atomic steps, each naming the thread that
moves). -/
def runSched {α : Type} (q : QName) (ca cb : Client α) :
    List ThreadId → ConcSys α → ConcSys α
  | [], s => s
  | t :: ts, s => runSched q ca cb ts (schedStep q ca cb s t)

/-- Number of issue events a thread in the given state can have contributed. -/
def tweight {α : Type} : TState α → Nat
  | TState.start => 0
  | TState.inflight => 1
  | TState.done _ => 1

/-- Invariant of the two-thread system when both clients answer the query with
`Except.ok df`: the cache field for `q` is empty or holds `df`, any finished
thread observed `Except.ok df`, and the number of issued queries is bounded by
the threads' progress. -/
def ConcInv {α : Type} (q : QName) (df : α) (s : ConcSys α) : Prop :=
  (BQManager.cacheField q s.cache = none ∨ BQManager.cacheField q s.cache = some df) ∧
  (∀ r, s.a = TState.done r → r = Except.ok df) ∧
  (∀ r, s.b = TState.done r → r = Except.ok df) ∧
  s.issued.length ≤ tweight s.a + tweight s.b

/-- Modelled from the spec: the dispatcher's `Outcome` (§4.2) — the recorded
result of attempting a named query, either `Success` with the tabular result or
`Failure` with the error description.  The dispatcher is not among the files
under src/; only the spec describes it. -/
inductive Outcome (α : Type) where
  | Success : α → Outcome α
  | Failure : String → Outcome α

/-- Modelled from the spec: a fully resolved Query Catalog (§3, §4.1) — for each
category, the list of (name, operation) pairs.  An operation is a zero-argument
fetch; it is represented by the result of executing it: a tabular result or a
raised error. -/
abbrev Catalog (α : Type) : Type := List (String × List (String × Except String α))

/-- Modelled from the spec: `fetch_all` (§4.2) executes every (category, name,
operation) triple of the catalog and records each outcome under its key —
`Success` for a returned result, `Failure` for a raised error; one operation's
failure does not abort the others.  Completion order and the bounded worker pool
affect only latency, not the resulting mapping, and are not modelled. -/
def fetch_all {α : Type} (catalog : Catalog α) :
    List (String × List (String × Outcome α)) :=
  catalog.map (fun cat =>
    (cat.1, cat.2.map (fun nq =>
      (nq.1,
        match nq.2 with
        | Except.ok df => Outcome.Success df
        | Except.error e => Outcome.Failure e))))

/-- Module-level `get_total_dau` in src/q1.py (lines 14–22): no cache, the query
is issued on every call.  The module-level BigQuery client is passed as a
parameter. -/
def q1.get_total_dau {α : Type} (client : Client α) : Except String α :=
  client q1TotalDauQuery

/-- Module-level `get_dau_by_platform` in src/q1.py (lines 24–33). -/
def q1.get_dau_by_platform {α : Type} (client : Client α) : Except String α :=
  client q1DauByPlatformQuery

/-- Module-level `get_overall_arpdau` in src/q1.py (lines 35–53). -/
def q1.get_overall_arpdau {α : Type} (client : Client α) : Except String α :=
  client q1OverallArpdauQuery

/-- Module-level `get_arpdau_by_platform` in src/q1.py (lines 55–74). -/
def q1.get_arpdau_by_platform {α : Type} (client : Client α) : Except String α :=
  client q1ArpdauByPlatformQuery

/-- Module-level `get_arpdau_by_package_type` in src/q1.py (lines 76–92). -/
def q1.get_arpdau_by_package_type {α : Type} (client : Client α) : Except String α :=
  client q1ArpdauByPackageTypeQuery

/-- Module-level `get_overall_retention` in src/q1.py (lines 94–115). -/
def q1.get_overall_retention {α : Type} (client : Client α) : Except String α :=
  client q1OverallRetentionQuery

/-- Module-level `get_retention_by_platform` in src/q1.py (lines 117–139). -/
def q1.get_retention_by_platform {α : Type} (client : Client α) : Except String α :=
  client q1RetentionByPlatformQuery

/-- Module-level `get_overall_roas` in src/q1.py (lines 141–162). -/
def q1.get_overall_roas {α : Type} (client : Client α) : Except String α :=
  client q1OverallRoasQuery

/-- Module-level `get_roas_by_platform` in src/q1.py (lines 164–186). -/
def q1.get_roas_by_platform {α : Type} (client : Client α) : Except String α :=
  client q1RoasByPlatformQuery

/-- Module-level `get_roas_by_package_type` in src/q1.py (lines 188–210). -/
def q1.get_roas_by_package_type {α : Type} (client : Client α) : Except String α :=
  client q1RoasByPackageTypeQuery

/-- Dispatch from a query name to the corresponding src/q1.py function. -/
def q1.run {α : Type} : QName → Client α → Except String α
  | QName.total_dau => q1.get_total_dau
  | QName.dau_by_platform => q1.get_dau_by_platform
  | QName.overall_arpdau => q1.get_overall_arpdau
  | QName.arpdau_by_platform => q1.get_arpdau_by_platform
  | QName.arpdau_by_package_type => q1.get_arpdau_by_package_type
  | QName.overall_retention => q1.get_overall_retention
  | QName.retention_by_platform => q1.get_retention_by_platform
  | QName.overall_roas => q1.get_overall_roas
  | QName.roas_by_platform => q1.get_roas_by_platform
  | QName.roas_by_package_type => q1.get_roas_by_package_type

/-- The query string submitted by the src/q1.py function of a given name. -/
def q1QueryOf : QName → String
  | QName.total_dau => q1TotalDauQuery
  | QName.dau_by_platform => q1DauByPlatformQuery
  | QName.overall_arpdau => q1OverallArpdauQuery
  | QName.arpdau_by_platform => q1ArpdauByPlatformQuery
  | QName.arpdau_by_package_type => q1ArpdauByPackageTypeQuery
  | QName.overall_retention => q1OverallRetentionQuery
  | QName.retention_by_platform => q1RetentionByPlatformQuery
  | QName.overall_roas => q1OverallRoasQuery
  | QName.roas_by_platform => q1RoasByPlatformQuery
  | QName.roas_by_package_type => q1RoasByPackageTypeQuery

/-- Whitespace characters (as Python's `str.split` with no argument treats them). -/
def isWS (c : Char) : Bool :=
  c = ' ' || c = '\t' || c = '\n' || c = '\r' || c = '\x0b' || c = '\x0c'

/-- Collapse every run of whitespace characters to one single space and trim
both ends.  `started` records whether a non-whitespace character has been
emitted; `pending` records whether a whitespace run is open. -/
def squeezeWS (started pending : Bool) : List Char → List Char
  | [] => []
  | c :: cs =>
    if isWS c then squeezeWS started true cs
    else (if started && pending then [' ', c] else [c]) ++ squeezeWS true false cs

/-- Whitespace-normalised form of a string: words joined by single spaces. -/
def normWS (s : String) : String :=
  ⟨squeezeWS false false s.data⟩

/-- A client distinguishing the two textual variants of the total-DAU query. -/
def discrimClient : Client Nat :=
  fun s => if s = bqTotalDauQuery then Except.ok 1 else Except.ok 2

/-- A scalar cell value: `none` models a missing value (pandas `NaN`), `some q`
a finite numeric value. -/
abbrev Val : Type := Option ℚ

/-- A dataframe row: an association list from column name to value, columns in
order. -/
abbrev Row : Type := List (String × Val)

/-- A dataframe: a list of rows. -/
abbrev DF : Type := List Row

/-- Read the value of column `c` in row `r`.  In the source a missing column
raises `KeyError`; every property below supplies rows that carry the required
columns, and a missing column is modelled as a missing value. -/
def colV (r : Row) (c : String) : Val :=
  (r.lookup c).getD none

/-- Pandas column assignment `df[c] = v` at row level: overwrite the column when
present (keeping its position), otherwise append it at the end. -/
def setCell (r : Row) (c : String) (v : Val) : Row :=
  if (r.lookup c).isSome then
    r.map (fun p => if p.1 = c then (c, v) else p)
  else
    r ++ [(c, v)]

/-- Series subtraction, `NaN`-propagating. -/
def subV (a b : Val) : Val :=
  match a, b with
  | some x, some y => some (x - y)
  | _, _ => none

/-- Series addition, `NaN`-propagating. -/
def addV (a b : Val) : Val :=
  match a, b with
  | some x, some y => some (x + y)
  | _, _ => none

/-- Adding a numeric constant to a series value, `NaN`-propagating. -/
def addC (a : Val) (k : ℚ) : Val :=
  match a with
  | some x => some (x + k)
  | none => none

/-- Series division: missing if either operand is missing.  Division by an exact
zero yields a non-finite value in pandas; it is modelled as a missing value.  In
`get_X_y` of src/ml_utils.py every denominator has just been zero-replaced
(`replace0` below never returns `some 0`), so that branch is never exercised
there. -/
def divV (a b : Val) : Val :=
  match b with
  | none => none
  | some y =>
    if y = 0 then none
    else
      match a with
      | none => none
      | some x => some (x / y)

/-- `series.replace(0, np.nan)` at value level. -/
def replace0 (v : Val) : Val :=
  match v with
  | some x => if x = 0 then none else some x
  | none => none

/-- `fillna(0)` at value level. -/
def fill0 (v : Val) : Val :=
  match v with
  | none => some 0
  | some x => some x

/-- `series > 0` at value level (pandas: `NaN > 0` is false). -/
def gt0 (v : Val) : Bool :=
  match v with
  | some x => decide (0 < x)
  | none => false

/-- `load_data` in src/ml_utils.py lines 11–21 (textually identical in
src/q3/ml_utils.py lines 10–20): fetch the user-metrics table and set the binary
target column, `df['made_purchase'] = (df['d30_revenue'] > 0).astype(int)`.  A
client failure propagates (no try/except). -/
def load_data (client : Client DF) : Except String DF :=
  match client q3UserMetricsQuery with
  | Except.error e => Except.error e
  | Except.ok df =>
    Except.ok (df.map (fun r =>
      setCell r "made_purchase" (if gt0 (colV r "d30_revenue") then some 1 else some 0)))

/-- The column operations of `get_X_y` in src/ml_utils.py, one entry per source
line in source order (lines 26–28 zero-replacements, lines 31–47 derived
columns, line 50 `fillna(0)`), each as its effect on one row — a pandas column
assignment applies uniformly to every row. -/
def mlLines : List (Row → Row) :=
  [fun r => setCell r "level_start" (replace0 (colV r "level_start")),
   fun r => setCell r "time_spend" (replace0 (colV r "time_spend")),
   fun r => setCell r "coin_spend" (replace0 (colV r "coin_spend")),
   fun r => setCell r "avg_time_per_level" (divV (colV r "time_spend") (colV r "level_start")),
   fun r => setCell r "success_rate" (divV (colV r "level_success") (colV r "level_start")),
   fun r => setCell r "failure_rate" (divV (colV r "level_fail") (colV r "level_start")),
   fun r => setCell r "net_success" (subV (colV r "level_success") (colV r "level_fail")),
   fun r => setCell r "net_coin" (subV (colV r "coin_earn") (colV r "coin_spend")),
   fun r => setCell r "net_booster" (subV (colV r "booster_earn") (colV r "booster_spend")),
   fun r => setCell r "coin_spend_rate" (divV (colV r "coin_spend") (colV r "time_spend")),
   fun r => setCell r "booster_spend_rate" (divV (colV r "booster_spend") (colV r "time_spend")),
   fun r => setCell r "coin_earn_rate" (divV (colV r "coin_earn") (colV r "time_spend")),
   fun r => setCell r "booster_earn_rate" (divV (colV r "booster_earn") (colV r "time_spend")),
   fun r => setCell r "booster_coin_ratio" (divV (colV r "booster_spend") (colV r "coin_spend")),
   fun r => setCell r "shop_frequency" (divV (colV r "shop_open") (colV r "time_spend")),
   fun r => r.map (fun p => (p.1, fill0 p.2))]

/-- Effect of src/ml_utils.py lines 26–50 on one row: the column operations in
source order. -/
def featRow (r : Row) : Row :=
  mlLines.foldl (fun r f => f r) r

/-- `feature_cols` of src/ml_utils.py lines 51–69. -/
def feature_cols : List String :=
  ["avg_time_per_level", "success_rate", "failure_rate", "net_success",
   "net_coin", "net_booster", "coin_spend_rate", "booster_spend_rate",
   "coin_earn_rate", "booster_earn_rate", "booster_coin_ratio",
   "shop_frequency", "age", "time_spend", "coin_spend", "coin_earn",
   "level_success", "level_fail", "level_start", "booster_spend",
   "booster_earn", "coin_amount", "event_participate", "shop_open",
   "country", "platform", "network"]

/-- `df[cols]` at row level: the selected columns in the requested order. -/
def selectRow (cols : List String) (r : Row) : Row :=
  cols.map (fun c => (c, colV r c))

/-- `get_X_y` in src/ml_utils.py (lines 23–72) at dataframe level: apply the
column operations to every row of the copy, select `feature_cols` as `X` and
read `made_purchase` as `y` (both after the in-place `fillna`). -/
def get_X_y (df_metrics : DF) : DF × List Val :=
  let df := df_metrics.map featRow
  (df.map (selectRow feature_cols), df.map (fun r => colV r "made_purchase"))

/-- The initial selection `X = df[[...]]` of src/q3/ml_utils.py lines 31–33. -/
def q3cols : List String :=
  ["age", "time_spend", "level_success", "event_participate", "coin_amount",
   "booster_spend", "shop_open", "country", "platform", "network"]

/-- The column assignments of `get_X_y` in src/q3/ml_utils.py lines 36–54 in
source order (commented-out lines skipped): each writes a column of `X` whose
value is computed from the columns of `df`. -/
def q3assigns : List (String × (Row → Val)) :=
  [("time_spend_rate", fun r => divV (colV r "time_spend") (addC (colV r "level_start") 1)),
   ("success_rate", fun r => divV (colV r "level_success") (addC (colV r "level_start") 1)),
   ("net_coin", fun r => subV (colV r "coin_earn") (colV r "coin_spend")),
   ("net_booster", fun r => subV (colV r "booster_earn") (colV r "booster_spend")),
   ("net_coin_rate", fun r => divV (subV (colV r "coin_earn") (colV r "coin_spend")) (addC (colV r "level_start") 1)),
   ("net_booster_freq", fun r => divV (subV (colV r "booster_earn") (colV r "booster_spend")) (addC (colV r "time_spend") 1)),
   ("booster_spend_ratio", fun r => divV (colV r "booster_spend") (addC (addV (colV r "booster_earn") (colV r "booster_spend")) 1)),
   ("coin_spend_ratio", fun r => divV (colV r "coin_spend") (addC (colV r "coin_amount") 1)),
   ("shop_open_frequency", fun r => divV (colV r "shop_open") (addC (colV r "time_spend") 1)),
   ("event_participate_frequency", fun r => divV (colV r "event_participate") (addC (colV r "time_spend") 1))]

/-- Effect of `get_X_y` in src/q3/ml_utils.py on one row: the initial selection
followed by the assignments, each reading the original row of `df`. -/
def q3featRow (r : Row) : Row :=
  q3assigns.foldl (fun x p => setCell x p.1 (p.2 r)) (selectRow q3cols r)

/-- `get_X_y` in src/q3/ml_utils.py (lines 28–57) at dataframe level. -/
def q3.get_X_y (df_metrics : DF) : DF × List Val :=
  (df_metrics.map q3featRow, df_metrics.map (fun r => colV r "made_purchase"))

/-- A store of pandas dataframe objects; a reference is an index into the store.
This makes aliasing and in-place mutation explicit. -/
abbrev Heap : Type := List DF

/-- A reference to a dataframe object in the store. -/
abbrev Ref : Type := Nat

/-- Read the dataframe object a reference points to. -/
def hread (h : Heap) (r : Ref) : DF :=
  h.getD r []

/-- Mutate the dataframe object a reference points to. -/
def hwrite (h : Heap) (r : Ref) (df : DF) : Heap :=
  h.set r df

/-- Apply a sequence of in-place column operations to the object at `df`, one
`hwrite` per source line. -/
def applyLines (h : Heap) (df : Ref) (fs : List (Row → Row)) : Heap :=
  fs.foldl (fun h f => hwrite h df ((hread h df).map f)) h

/-- `get_X_y` (src/ml_utils.py) with the object store explicit:
`df = df_metrics.copy()` allocates a fresh object; every column assignment and
the in-place `fillna` mutate that fresh object only; `X = df[feature_cols]`
builds a new object.  Returns the heap, a reference to `X`, and `y`. -/
def get_X_y_heap (h : Heap) (df_metrics : Ref) : Heap × Ref × List Val :=
  let df : Ref := h.length
  let h := h ++ [hread h df_metrics]
  let h := applyLines h df mlLines
  let X : Ref := h.length
  let h := h ++ [(hread h df).map (selectRow feature_cols)]
  (h, X, (hread h df).map (fun r => colV r "made_purchase"))

/-- One q3 column assignment with the object store explicit: mutate `X` by
writing column `c`, whose per-row value is computed from the aligned row of
`df` (`X` was selected from `df`, so the two have equal length and index). -/
def assignFromDF (h : Heap) (df X : Ref) (c : String) (f : Row → Val) : Heap :=
  hwrite h X (List.zipWith (fun rdf rx => setCell rx c (f rdf)) (hread h df) (hread h X))

/-- `get_X_y` (src/q3/ml_utils.py) with the object store explicit:
`df = df_metrics.copy()` allocates a fresh object, `X = df[[...]]` allocates
another (pandas column selection by list returns a copy), and every assignment
mutates `X` only. -/
def q3.get_X_y_heap (h : Heap) (df_metrics : Ref) : Heap × Ref × List Val :=
  let df : Ref := h.length
  let h := h ++ [hread h df_metrics]
  let X : Ref := h.length
  let h := h ++ [(hread h df).map (selectRow q3cols)]
  let h := q3assigns.foldl (fun h p => assignFromDF h df X p.1 p.2) h
  (h, X, (hread h df).map (fun r => colV r "made_purchase"))

/-- A row of the `q3_table_user_metrics` table with the documented schema (the
column list recorded in src/q3/ml_utils.py lines 21–26), every cell carrying a
finite value.  Categorical columns take part in no arithmetic here, so their
values are represented in the same scalar domain. -/
def stdRow (user_id country age platform network time_spend coin_spend coin_earn
    level_success level_fail level_start booster_spend booster_earn coin_amount
    event_participate shop_open d30_revenue made_purchase : ℚ) : Row :=
  [("user_id", some user_id), ("country", some country), ("age", some age),
   ("platform", some platform), ("network", some network),
   ("time_spend", some time_spend), ("coin_spend", some coin_spend),
   ("coin_earn", some coin_earn), ("level_success", some level_success),
   ("level_fail", some level_fail), ("level_start", some level_start),
   ("booster_spend", some booster_spend), ("booster_earn", some booster_earn),
   ("coin_amount", some coin_amount), ("event_participate", some event_participate),
   ("shop_open", some shop_open), ("d30_revenue", some d30_revenue),
   ("made_purchase", some made_purchase)]

/-- A client answering every query with a fixed dataframe (used in concrete
checks). -/
def dfClient (df : DF) : Client DF := fun _ => Except.ok df

/-- In a fresh instance every cache field is empty. -/
lemma BQManager.cacheField_init {α : Type} (q : QName) :
    BQManager.cacheField q (BQManager.init (α := α)) = none := by
  cases q <;> rfl

/-- A getter whose cache field is populated returns the cached value, leaves the
state unchanged, and issues no query. -/
lemma BQManager.getter_cached {α : Type} (q : QName) (c : Client α) (s : BQManager α)
    (df : α) (h : BQManager.cacheField q s = some df) :
    BQManager.getter q c s = ⟨Except.ok df, s, []⟩ := by
  cases q <;>
    simp_all [BQManager.getter, BQManager.cacheField, BQManager.get_total_dau,
      BQManager.get_dau_by_platform, BQManager.get_overall_arpdau,
      BQManager.get_arpdau_by_platform, BQManager.get_arpdau_by_package_type,
      BQManager.get_overall_retention, BQManager.get_retention_by_platform,
      BQManager.get_overall_roas, BQManager.get_roas_by_platform,
      BQManager.get_roas_by_package_type]

/-- A getter whose cache field is empty and whose client call succeeds stores the
result, returns it, and issues exactly its own query. -/
lemma BQManager.getter_miss_ok {α : Type} (q : QName) (c : Client α) (s : BQManager α)
    (df : α) (h : BQManager.cacheField q s = none)
    (hc : c (bqQueryOf q) = Except.ok df) :
    BQManager.getter q c s = ⟨Except.ok df, BQManager.writeField q df s, [bqQueryOf q]⟩ := by
  cases q <;>
    simp_all [BQManager.getter, BQManager.cacheField, BQManager.writeField, bqQueryOf,
      BQManager.get_total_dau,
      BQManager.get_dau_by_platform, BQManager.get_overall_arpdau,
      BQManager.get_arpdau_by_platform, BQManager.get_arpdau_by_package_type,
      BQManager.get_overall_retention, BQManager.get_retention_by_platform,
      BQManager.get_overall_roas, BQManager.get_roas_by_platform,
      BQManager.get_roas_by_package_type]

/-- A getter whose cache field is empty and whose client call raises propagates the
error and leaves the state unchanged, having issued exactly its own query. -/
lemma BQManager.getter_miss_err {α : Type} (q : QName) (c : Client α) (s : BQManager α)
    (e : String) (h : BQManager.cacheField q s = none)
    (hc : c (bqQueryOf q) = Except.error e) :
    BQManager.getter q c s = ⟨Except.error e, s, [bqQueryOf q]⟩ := by
  cases q <;>
    simp_all [BQManager.getter, BQManager.cacheField, bqQueryOf,
      BQManager.get_total_dau,
      BQManager.get_dau_by_platform, BQManager.get_overall_arpdau,
      BQManager.get_arpdau_by_platform, BQManager.get_arpdau_by_package_type,
      BQManager.get_overall_retention, BQManager.get_retention_by_platform,
      BQManager.get_overall_roas, BQManager.get_roas_by_platform,
      BQManager.get_roas_by_package_type]

/-- Writing a field makes that field populated. -/
lemma BQManager.cacheField_writeField_same {α : Type} (q : QName) (df : α)
    (s : BQManager α) :
    BQManager.cacheField q (BQManager.writeField q df s) = some df := by
  cases q <;> rfl

/-- Writing one field leaves every other field unchanged. -/
lemma BQManager.cacheField_writeField_ne {α : Type} (q q' : QName) (df : α)
    (s : BQManager α) (h : q' ≠ q) :
    BQManager.cacheField q' (BQManager.writeField q df s) = BQManager.cacheField q' s := by
  cases q <;> cases q' <;> simp_all [BQManager.cacheField, BQManager.writeField]

/-- Iterating a getter whose cache field is already populated issues no query and
returns the cached value every time. -/
lemma BQManager.iterateGet_cached {α : Type} (q : QName) (client : Client α)
    (df : α) (n : Nat) (s : BQManager α) (h : BQManager.cacheField q s = some df) :
    BQManager.iterateGet q client n s = (List.replicate n (Except.ok df), s, []) := by
  induction n with
  | zero => simp [BQManager.iterateGet]
  | succ n ih =>
    rw [BQManager.iterateGet, BQManager.getter_cached q client s df h]
    simp [ih, List.replicate_succ]

/-- A populated cache field survives one getter call unchanged, whichever getter
is called. -/
lemma BQManager.cacheField_mono_step {α : Type} (q q' : QName) (c : Client α)
    (s : BQManager α) (df : α) (h : BQManager.cacheField q s = some df) :
    BQManager.cacheField q ((BQManager.getter q' c s).state) = some df := by
  by_cases hq : q' = q
  · subst hq
    rw [BQManager.getter_cached q' c s df h]
    exact h
  · cases hcf : BQManager.cacheField q' s with
    | some df' => rw [BQManager.getter_cached q' c s df' hcf]; exact h
    | none =>
      cases hc : c (bqQueryOf q') with
      | ok df' =>
        rw [BQManager.getter_miss_ok q' c s df' hcf hc]
        rw [BQManager.cacheField_writeField_ne q' q df' s (fun hh => hq hh.symm)]
        exact h
      | error e =>
        rw [BQManager.getter_miss_err q' c s e hcf hc]
        exact h

/-- C1: for every `BQManager` instance and every one of its getter operations,
calling that getter `n + 1` times in sequence issues the underlying client query
exactly once — on the first call — and every call (the first and all subsequent
ones) returns the result fetched by that first invocation. -/
theorem bqManager_getter_memoizes {α : Type} (q : QName) (client : Client α)
    (df : α) (n : Nat) (hc : client (bqQueryOf q) = Except.ok df) :
    (BQManager.iterateGet q client (n + 1) BQManager.init).2.2 = [bqQueryOf q] ∧
    ∀ r ∈ (BQManager.iterateGet q client (n + 1) BQManager.init).1, r = Except.ok df := by
  rw [BQManager.iterateGet,
    BQManager.getter_miss_ok q client BQManager.init df (BQManager.cacheField_init q) hc,
    BQManager.iterateGet_cached q client df n _ (BQManager.cacheField_writeField_same q df _)]
  constructor
  · simp
  · intro r hr
    rcases List.mem_cons.mp hr with h | h
    · exact h
    · exact List.eq_of_mem_replicate h

/-- Witness for C1: three sequential calls of `get_total_dau` on a fresh instance
with a client returning `7` issue the query once and always return `7`. -/
theorem bqManager_getter_memoizes_witness :
    (BQManager.iterateGet QName.total_dau (fun _ => Except.ok (7 : Nat)) 3 BQManager.init).2.2
        = [bqQueryOf QName.total_dau] ∧
    ∀ r ∈ (BQManager.iterateGet QName.total_dau (fun _ => Except.ok (7 : Nat)) 3
        BQManager.init).1, r = Except.ok 7 :=
  bqManager_getter_memoizes QName.total_dau (fun _ => Except.ok 7) 7 2 rfl

/-- C3: calling the getter for query `q` leaves the cache field of every other
query `q'` unchanged, and the set of queries it issues to the data source is
determined by `q`'s own cache field alone: empty exactly when that field is
empty. -/
theorem bqManager_per_name_cache_independent {α : Type} (q q' : QName)
    (client : Client α) (s : BQManager α) (hne : q' ≠ q) :
    BQManager.cacheField q' ((BQManager.getter q client s).state)
        = BQManager.cacheField q' s ∧
    (BQManager.getter q client s).issued
        = (if (BQManager.cacheField q s).isSome then [] else [bqQueryOf q]) := by
  cases hcf : BQManager.cacheField q s with
  | some df =>
    rw [BQManager.getter_cached q client s df hcf]
    simp
  | none =>
    cases hc : client (bqQueryOf q) with
    | ok df =>
      rw [BQManager.getter_miss_ok q client s df hcf hc]
      simp [BQManager.cacheField_writeField_ne q q' df s hne]
    | error e =>
      rw [BQManager.getter_miss_err q client s e hcf hc]
      simp

/-- Witness for C3: fetching `total_dau` on a fresh instance leaves the
`dau_by_platform` cache field empty and issues exactly the `total_dau` query. -/
theorem bqManager_per_name_cache_independent_witness :
    BQManager.cacheField QName.dau_by_platform
        ((BQManager.getter QName.total_dau (fun _ => Except.ok (5 : Nat))
          BQManager.init).state)
        = BQManager.cacheField QName.dau_by_platform (BQManager.init (α := Nat)) ∧
    (BQManager.getter QName.total_dau (fun _ => Except.ok (5 : Nat))
        BQManager.init).issued
        = (if (BQManager.cacheField QName.total_dau
            (BQManager.init (α := Nat))).isSome then [] else [bqQueryOf QName.total_dau]) :=
  bqManager_per_name_cache_independent QName.total_dau QName.dau_by_platform
    (fun _ => Except.ok 5) BQManager.init (by decide)

/-- C4: cache-entry lifecycle.  Every cache field starts empty; once populated
with a value it keeps exactly that value across any further sequence of getter
calls; a field goes from empty to populated only through a successful fetch of
its own query; and a failed fetch leaves the field empty. -/
theorem bqManager_cache_lifecycle {α : Type} (q : QName) :
    BQManager.cacheField q (BQManager.init (α := α)) = none ∧
    (∀ (ops : List (QName × Client α)) (s : BQManager α) (df : α),
      BQManager.cacheField q s = some df →
      BQManager.cacheField q (BQManager.runTrace ops s) = some df) ∧
    (∀ (q' : QName) (c : Client α) (s : BQManager α) (df : α),
      BQManager.cacheField q s = none →
      BQManager.cacheField q ((BQManager.getter q' c s).state) = some df →
      q' = q ∧ c (bqQueryOf q) = Except.ok df) ∧
    (∀ (c : Client α) (s : BQManager α) (e : String),
      BQManager.cacheField q s = none → c (bqQueryOf q) = Except.error e →
      BQManager.cacheField q ((BQManager.getter q c s).state) = none) := by
  refine ⟨BQManager.cacheField_init q, ?_, ?_, ?_⟩
  · intro ops
    induction ops with
    | nil => intro s df h; exact h
    | cons op ops ih =>
      intro s df h
      obtain ⟨q', c⟩ := op
      rw [BQManager.runTrace]
      exact ih _ df (BQManager.cacheField_mono_step q q' c s df h)
  · intro q' c s df h hpop
    by_cases hq : q' = q
    · subst hq
      cases hc : c (bqQueryOf q') with
      | ok df' =>
        rw [BQManager.getter_miss_ok q' c s df' h hc,
          BQManager.cacheField_writeField_same q' df' s] at hpop
        injection hpop with hdf
        subst hdf
        exact ⟨rfl, rfl⟩
      | error e =>
        rw [BQManager.getter_miss_err q' c s e h hc] at hpop
        rw [h] at hpop
        cases hpop
    · exfalso
      cases hcf : BQManager.cacheField q' s with
      | some df' =>
        rw [BQManager.getter_cached q' c s df' hcf, h] at hpop
        cases hpop
      | none =>
        cases hc : c (bqQueryOf q') with
        | ok df' =>
          rw [BQManager.getter_miss_ok q' c s df' hcf hc,
            BQManager.cacheField_writeField_ne q' q df' s (fun hh => hq hh.symm), h] at hpop
          cases hpop
        | error e =>
          rw [BQManager.getter_miss_err q' c s e hcf hc, h] at hpop
          cases hpop
  · intro c s e h hc
    rw [BQManager.getter_miss_err q c s e h hc]
    exact h

/-- Witness for C4: with a failing client the `total_dau` field stays empty; with
a succeeding client a populated field survives a later trace of calls; and a
fresh-to-populated transition pins down the successful fetch. -/
theorem bqManager_cache_lifecycle_witness :
    BQManager.cacheField QName.total_dau
        ((BQManager.getter QName.total_dau (errClientNat "boom")
          (BQManager.init (α := Nat))).state) = none ∧
    BQManager.cacheField QName.total_dau
        (BQManager.runTrace
          [(QName.total_dau, okClientNat 9),
           (QName.overall_roas, errClientNat "down")]
          (BQManager.writeField QName.total_dau 4 BQManager.init)) = some 4 ∧
    (QName.total_dau = QName.total_dau ∧
      okClientNat 6 (bqQueryOf QName.total_dau) = Except.ok 6) :=
  ⟨(bqManager_cache_lifecycle QName.total_dau).2.2.2 _ _ _ rfl rfl,
   (bqManager_cache_lifecycle QName.total_dau).2.1 _ _ 4 rfl,
   (bqManager_cache_lifecycle QName.total_dau).2.2.1 QName.total_dau
     (okClientNat 6) BQManager.init 6 rfl rfl⟩

/-- C2 as stated is false: a failing client call is not captured as data by the
fetch layer.  With a client that raises, `DreamGamesAnalytics._run_query`
propagates the exception to its caller, and `BQManager.get_total_dau` likewise
returns the raised error and records nothing (its cache field stays `None`),
rather than recording a `Failure` outcome under the query's key. -/
theorem fetch_failure_propagates_counterexample :
    DreamGamesAnalytics.run_query (errClientNat "quota exceeded") bqTotalDauQuery
        = Except.error "quota exceeded" ∧
    (BQManager.get_total_dau (errClientNat "quota exceeded") BQManager.init).result
        = Except.error "quota exceeded" ∧
    (BQManager.get_total_dau (errClientNat "quota exceeded") BQManager.init).state
        = BQManager.init := by
  exact ⟨rfl, rfl, rfl⟩

/-- C2 amended: when the underlying client call for an uncached query fails, the
failure propagates to the consumer as a raised exception (the getter's result is
that error), the cache is left unchanged (no outcome is recorded under the
query's key), and `_run_query` re-raises any client failure unchanged. -/
theorem fetch_failure_raises {α : Type} (q : QName) (client : Client α)
    (s : BQManager α) (e : String) (hmiss : BQManager.cacheField q s = none)
    (hc : client (bqQueryOf q) = Except.error e) :
    (BQManager.getter q client s).result = Except.error e ∧
    (BQManager.getter q client s).state = s ∧
    DreamGamesAnalytics.run_query client (bqQueryOf q) = Except.error e := by
  rw [BQManager.getter_miss_err q client s e hmiss hc]
  exact ⟨rfl, rfl, hc⟩

/-- Witness for the amended C2 at a concrete failing client. -/
theorem fetch_failure_raises_witness :
    (BQManager.getter QName.overall_roas (errClientNat "network down")
        (BQManager.init (α := Nat))).result = Except.error "network down" ∧
    (BQManager.getter QName.overall_roas (errClientNat "network down")
        (BQManager.init (α := Nat))).state = BQManager.init ∧
    DreamGamesAnalytics.run_query (errClientNat "network down")
        (bqQueryOf QName.overall_roas) = Except.error "network down" :=
  fetch_failure_raises QName.overall_roas (errClientNat "network down")
    BQManager.init "network down" rfl rfl

/-- The invariant holds initially. -/
lemma concInv_init {α : Type} (q : QName) (df : α) :
    ConcInv q df (ConcSys.init (α := α)) := by
  refine ⟨Or.inl (BQManager.cacheField_init q), ?_, ?_, ?_⟩
  · intro r h; cases h
  · intro r h; cases h
  · simp [ConcSys.init, tweight]

/-- One scheduler step preserves the invariant when both clients answer the
query successfully with the same result. -/
lemma concInv_step {α : Type} (q : QName) (ca cb : Client α) (df : α)
    (hca : ca (bqQueryOf q) = Except.ok df) (hcb : cb (bqQueryOf q) = Except.ok df)
    (s : ConcSys α) (h : ConcInv q df s) (t : ThreadId) :
    ConcInv q df (schedStep q ca cb s t) := by
  obtain ⟨hcache, ha, hb, hlen⟩ := h
  cases t with
  | A =>
    cases hta : s.a with
    | start =>
      rw [hta] at hlen
      rcases hcache with hn | hs
      · simp only [schedStep, threadStep, hta, hn, ConcInv]
        refine ⟨Or.inl trivial, ?_, ?_, ?_⟩
        · intro r hr; cases hr
        · exact hb
        · simp only [tweight, List.length_append, List.length_cons,
            List.length_nil] at hlen ⊢
          omega
      · simp only [schedStep, threadStep, hta, hs, ConcInv]
        refine ⟨Or.inr trivial, ?_, ?_, ?_⟩
        · intro r hr; injection hr with hr; exact hr.symm
        · exact hb
        · simp only [tweight] at hlen ⊢
          omega
    | inflight =>
      rw [hta] at hlen
      simp only [schedStep, threadStep, hta, hca, ConcInv]
      refine ⟨Or.inr (BQManager.cacheField_writeField_same q df s.cache), ?_, ?_, ?_⟩
      · intro r hr; injection hr with hr; exact hr.symm
      · exact hb
      · simp only [tweight] at hlen ⊢
        omega
    | done r =>
      rw [hta] at hlen
      simp only [schedStep, threadStep, hta, ConcInv]
      refine ⟨hcache, ?_, ?_, ?_⟩
      · intro r' hr; injection hr with hr; subst hr; exact ha r hta
      · exact hb
      · simp only [tweight] at hlen ⊢
        omega
  | B =>
    cases htb : s.b with
    | start =>
      rw [htb] at hlen
      rcases hcache with hn | hs
      · simp only [schedStep, threadStep, htb, hn, ConcInv]
        refine ⟨Or.inl trivial, ?_, ?_, ?_⟩
        · exact ha
        · intro r hr; cases hr
        · simp only [tweight, List.length_append, List.length_cons,
            List.length_nil] at hlen ⊢
          omega
      · simp only [schedStep, threadStep, htb, hs, ConcInv]
        refine ⟨Or.inr trivial, ?_, ?_, ?_⟩
        · exact ha
        · intro r hr; injection hr with hr; exact hr.symm
        · simp only [tweight] at hlen ⊢
          omega
    | inflight =>
      rw [htb] at hlen
      simp only [schedStep, threadStep, htb, hcb, ConcInv]
      refine ⟨Or.inr (BQManager.cacheField_writeField_same q df s.cache), ?_, ?_, ?_⟩
      · exact ha
      · intro r hr; injection hr with hr; exact hr.symm
      · simp only [tweight] at hlen ⊢
        omega
    | done r =>
      rw [htb] at hlen
      simp only [schedStep, threadStep, htb, ConcInv]
      refine ⟨hcache, ?_, ?_, ?_⟩
      · exact ha
      · intro r' hr; injection hr with hr; subst hr; exact hb r htb
      · simp only [tweight] at hlen ⊢
        omega

/-- The invariant is preserved by any schedule. -/
lemma concInv_run {α : Type} (q : QName) (ca cb : Client α) (df : α)
    (hca : ca (bqQueryOf q) = Except.ok df) (hcb : cb (bqQueryOf q) = Except.ok df)
    (sched : List ThreadId) (s : ConcSys α) (h : ConcInv q df s) :
    ConcInv q df (runSched q ca cb sched s) := by
  induction sched generalizing s with
  | nil => exact h
  | cons t ts ih => exact ih _ (concInv_step q ca cb df hca hcb s h t)

/-- C5 as stated is false: the Python getters have no synchronisation around the
check-then-fetch-then-assign sequence.  For the schedule A-check, B-check,
A-complete, B-complete on a fresh instance (both threads calling
`get_total_dau`, the remote call answering `1` to A and `2` to B), the query is
issued twice, the two callers observe different results, and B's slower
completion overwrites the cache entry written by A's completion. -/
theorem concurrent_fetch_counterexample :
    (runSched QName.total_dau (okClientNat 1) (okClientNat 2)
        [ThreadId.A, ThreadId.B, ThreadId.A] ConcSys.init).cache.total_dau_df
      = some 1 ∧
    (runSched QName.total_dau (okClientNat 1) (okClientNat 2)
        [ThreadId.A, ThreadId.B, ThreadId.A, ThreadId.B] ConcSys.init).cache.total_dau_df
      = some 2 ∧
    (runSched QName.total_dau (okClientNat 1) (okClientNat 2)
        [ThreadId.A, ThreadId.B, ThreadId.A, ThreadId.B] ConcSys.init).issued
      = [bqQueryOf QName.total_dau, bqQueryOf QName.total_dau] ∧
    (runSched QName.total_dau (okClientNat 1) (okClientNat 2)
        [ThreadId.A, ThreadId.B, ThreadId.A, ThreadId.B] ConcSys.init).a
      = TState.done (Except.ok 1) ∧
    (runSched QName.total_dau (okClientNat 1) (okClientNat 2)
        [ThreadId.A, ThreadId.B, ThreadId.A, ThreadId.B] ConcSys.init).b
      = TState.done (Except.ok 2) :=
  ⟨rfl, rfl, rfl, rfl, rfl⟩

/-- C5 amended: with the unsynchronised code, two concurrent requests for a
not-yet-cached name issue the underlying query at most twice (not exactly once);
when the remote source answers both calls with the same result, both callers
observe that result; and when the two calls do not overlap (one runs to
completion before the other starts), exactly one query is issued and both
callers observe the fetched result. -/
theorem concurrent_fetch_amended {α : Type} (q : QName) (c : Client α) (df : α)
    (hc : c (bqQueryOf q) = Except.ok df) :
    (∀ sched : List ThreadId,
      (runSched q c c sched ConcSys.init).issued.length ≤ 2 ∧
      ∀ ra rb, (runSched q c c sched ConcSys.init).a = TState.done ra →
        (runSched q c c sched ConcSys.init).b = TState.done rb →
        ra = Except.ok df ∧ rb = Except.ok df) ∧
    (runSched q c c [ThreadId.A, ThreadId.A, ThreadId.B, ThreadId.B]
        ConcSys.init).issued = [bqQueryOf q] ∧
    (runSched q c c [ThreadId.A, ThreadId.A, ThreadId.B, ThreadId.B]
        ConcSys.init).a = TState.done (Except.ok df) ∧
    (runSched q c c [ThreadId.A, ThreadId.A, ThreadId.B, ThreadId.B]
        ConcSys.init).b = TState.done (Except.ok df) := by
  refine ⟨?_, ?_⟩
  · intro sched
    obtain ⟨-, hA, hB, hlen⟩ :=
      concInv_run q c c df hc hc sched ConcSys.init (concInv_init q df)
    refine ⟨?_, ?_⟩
    · have wa : tweight (runSched q c c sched ConcSys.init).a ≤ 1 := by
        cases (runSched q c c sched ConcSys.init).a <;> simp [tweight]
      have wb : tweight (runSched q c c sched ConcSys.init).b ≤ 1 := by
        cases (runSched q c c sched ConcSys.init).b <;> simp [tweight]
      omega
    · intro ra rb hra hrb
      exact ⟨hA ra hra, hB rb hrb⟩
  · have h1 : runSched q c c [ThreadId.A, ThreadId.A, ThreadId.B, ThreadId.B]
        ConcSys.init =
        { cache := BQManager.writeField q df BQManager.init,
          a := TState.done (Except.ok df),
          b := TState.done (Except.ok df),
          issued := [bqQueryOf q] } := by
      simp [runSched, schedStep, threadStep, ConcSys.init, BQManager.cacheField_init,
        hc, BQManager.cacheField_writeField_same]
    rw [h1]
    exact ⟨rfl, rfl, rfl⟩

/-- Witness for the amended C5 at a concrete client answering `5`. -/
theorem concurrent_fetch_amended_witness :
    (∀ sched : List ThreadId,
      (runSched QName.total_dau (okClientNat 5) (okClientNat 5) sched
          ConcSys.init).issued.length ≤ 2 ∧
      ∀ ra rb,
        (runSched QName.total_dau (okClientNat 5) (okClientNat 5) sched
            ConcSys.init).a = TState.done ra →
        (runSched QName.total_dau (okClientNat 5) (okClientNat 5) sched
            ConcSys.init).b = TState.done rb →
        ra = Except.ok 5 ∧ rb = Except.ok 5) ∧
    (runSched QName.total_dau (okClientNat 5) (okClientNat 5)
        [ThreadId.A, ThreadId.A, ThreadId.B, ThreadId.B]
        ConcSys.init).issued = [bqQueryOf QName.total_dau] ∧
    (runSched QName.total_dau (okClientNat 5) (okClientNat 5)
        [ThreadId.A, ThreadId.A, ThreadId.B, ThreadId.B]
        ConcSys.init).a = TState.done (Except.ok 5) ∧
    (runSched QName.total_dau (okClientNat 5) (okClientNat 5)
        [ThreadId.A, ThreadId.A, ThreadId.B, ThreadId.B]
        ConcSys.init).b = TState.done (Except.ok 5) :=
  concurrent_fetch_amended QName.total_dau (okClientNat 5) 5 rfl

/-- C6: for every catalog, `fetch_all` returns an outcome for every
(category, name) pair present in the catalog and for no other pair — the result
mapping has exactly the catalog's keys, each carrying an `Outcome` (`Success` or
`Failure`). -/
theorem fetch_all_fully_populated {α : Type} (catalog : Catalog α)
    (cat name : String) :
    (∃ outs o, (cat, outs) ∈ fetch_all catalog ∧ (name, o) ∈ outs) ↔
    (∃ ops op, (cat, ops) ∈ catalog ∧ (name, op) ∈ ops) := by
  constructor
  · rintro ⟨outs, o, houts, ho⟩
    obtain ⟨⟨c0, ops⟩, hcat, heq⟩ := List.mem_map.mp houts
    injection heq with h1 h2
    subst h1
    subst h2
    obtain ⟨⟨n0, op⟩, hop, heq2⟩ := List.mem_map.mp ho
    injection heq2 with h3 h4
    subst h3
    exact ⟨ops, op, hcat, hop⟩
  · rintro ⟨ops, op, hcat, hop⟩
    refine ⟨_, _, List.mem_map.mpr ⟨(cat, ops), hcat, rfl⟩,
      List.mem_map.mpr ⟨(name, op), hop, rfl⟩⟩

/-- For every name, `q1.run` submits exactly its query string to the client. -/
lemma q1_run_eq {α : Type} (q : QName) (cl : Client α) :
    q1.run q cl = cl (q1QueryOf q) := by
  cases q <;> rfl

/-- On a fresh instance the getter's result is exactly the client's answer to
its query. -/
lemma BQManager.getter_fresh_result {α : Type} (q : QName) (cl : Client α) :
    (BQManager.getter q cl BQManager.init).result = cl (bqQueryOf q) := by
  cases hres : cl (bqQueryOf q) with
  | ok df =>
    rw [BQManager.getter_miss_ok q cl _ df (BQManager.cacheField_init q) hres]
  | error e =>
    rw [BQManager.getter_miss_err q cl _ e (BQManager.cacheField_init q) hres]

/-- C7 as stated is false: the uncached `BQManager` getter and the corresponding
src/q1.py function do not submit the same query string — the two total-DAU texts
differ (in whitespace) — and against a data source that distinguishes the two
strings the two functions return different results. -/
theorem bq_q1_query_strings_differ_counterexample :
    bqTotalDauQuery ≠ q1TotalDauQuery ∧
    (BQManager.get_total_dau discrimClient BQManager.init).result = Except.ok 1 ∧
    q1.get_total_dau discrimClient = Except.ok 2 := by
  refine ⟨by decide, rfl, ?_⟩
  show discrimClient q1TotalDauQuery = Except.ok 2
  rw [discrimClient]
  rw [if_neg (by decide)]

/-- C7 amended: for every one of the ten metrics, the query submitted by the
uncached `BQManager` getter and the query submitted by the src/q1.py function
are equal up to whitespace (identical SQL text after collapsing whitespace
runs), so any data source whose behaviour depends only on the
whitespace-normalised query text returns equal results for the two. -/
theorem bq_q1_same_query_up_to_whitespace {α : Type} (q : QName) (cl : Client α)
    (hcl : ∀ s t, normWS s = normWS t → cl s = cl t) :
    normWS (bqQueryOf q) = normWS (q1QueryOf q) ∧
    (BQManager.getter q cl BQManager.init).result = q1.run q cl := by
  have hq : normWS (bqQueryOf q) = normWS (q1QueryOf q) := by
    cases q <;> decide
  refine ⟨hq, ?_⟩
  rw [BQManager.getter_fresh_result, q1_run_eq]
  exact hcl _ _ hq

/-- Witness for the amended C7: a whitespace-insensitive client (it ignores the
query text) yields equal results for the overall-ARPDAU pair. -/
theorem bq_q1_same_query_up_to_whitespace_witness :
    normWS (bqQueryOf QName.overall_arpdau) = normWS (q1QueryOf QName.overall_arpdau) ∧
    (BQManager.getter QName.overall_arpdau (okClientNat 3) BQManager.init).result
        = q1.run QName.overall_arpdau (okClientNat 3) :=
  bq_q1_same_query_up_to_whitespace QName.overall_arpdau (okClientNat 3)
    (fun _ _ _ => rfl)

lemma lookup_cons_self (c : String) (w : Val) (rest : Row) :
    List.lookup c ((c, w) :: rest) = some w := by
  simp [List.lookup]

lemma lookup_cons_ne (c k : String) (w : Val) (rest : Row) (h : c ≠ k) :
    List.lookup c ((k, w) :: rest) = List.lookup c rest := by
  simp [List.lookup, beq_eq_false_iff_ne.mpr h]

lemma lookup_overwrite_self (r : Row) (c : String) (v : Val) :
    (r.map (fun p => if p.1 = c then (c, v) else p)).lookup c =
      (r.lookup c).map (fun _ => v) := by
  induction r with
  | nil => rfl
  | cons p r ih =>
    obtain ⟨k, w⟩ := p
    by_cases h : k = c
    · subst h
      simp only [List.map_cons, Prod.fst, eq_self_iff_true, if_true]
      rw [lookup_cons_self, lookup_cons_self]
      rfl
    · simp only [List.map_cons]
      rw [if_neg h, lookup_cons_ne _ _ _ _ (fun hh => h hh.symm),
        lookup_cons_ne _ _ _ _ (fun hh => h hh.symm), ih]

lemma lookup_overwrite_other (r : Row) (c c' : String) (v : Val) (h : c' ≠ c) :
    (r.map (fun p => if p.1 = c then (c, v) else p)).lookup c' = r.lookup c' := by
  induction r with
  | nil => rfl
  | cons p r ih =>
    obtain ⟨k, w⟩ := p
    by_cases hk : k = c
    · subst hk
      simp only [List.map_cons, Prod.fst, eq_self_iff_true, if_true]
      rw [lookup_cons_ne _ _ _ _ h, lookup_cons_ne _ _ _ _ h, ih]
    · simp only [List.map_cons]
      rw [if_neg hk]
      by_cases hk' : c' = k
      · subst hk'
        rw [lookup_cons_self, lookup_cons_self]
      · rw [lookup_cons_ne _ _ _ _ hk', lookup_cons_ne _ _ _ _ hk', ih]

lemma lookup_append_row (r s : Row) (c : String) :
    (r ++ s).lookup c = ((r.lookup c).or (s.lookup c)) := by
  induction r with
  | nil => rfl
  | cons p r ih =>
    obtain ⟨k, w⟩ := p
    by_cases h : c = k
    · subst h
      rw [List.cons_append, lookup_cons_self, lookup_cons_self]
      rfl
    · rw [List.cons_append, lookup_cons_ne _ _ _ _ h, lookup_cons_ne _ _ _ _ h, ih]

/-- Column lookup after a pandas column assignment: the assigned column reads the
new value, every other column is untouched. -/
lemma lookup_setCell (r : Row) (c c' : String) (v : Val) :
    (setCell r c v).lookup c' = if c' = c then some v else r.lookup c' := by
  by_cases h : c' = c
  · subst h
    rw [if_pos rfl]
    unfold setCell
    by_cases hs : (r.lookup c').isSome
    · rw [if_pos hs, lookup_overwrite_self]
      cases hl : r.lookup c'
      · rw [hl] at hs; cases hs
      · rfl
    · rw [if_neg hs, lookup_append_row]
      cases hl : r.lookup c'
      · rw [lookup_cons_self]; rfl
      · rw [hl] at hs; simp at hs
  · rw [if_neg h]
    unfold setCell
    by_cases hs : (r.lookup c).isSome
    · rw [if_pos hs, lookup_overwrite_other r c c' v h]
    · rw [if_neg hs, lookup_append_row, lookup_cons_ne _ _ _ _ h]
      cases r.lookup c' <;> rfl

/-- `colV` after a column assignment. -/
lemma colV_setCell (r : Row) (c c' : String) (v : Val) :
    colV (setCell r c v) c' = if c' = c then v else colV r c' := by
  unfold colV
  rw [lookup_setCell]
  by_cases h : c' = c
  · rw [if_pos h, if_pos h]; rfl
  · rw [if_neg h, if_neg h]

/-- `colV` after the rowwise `fillna`. -/
lemma lookup_fill_row (r : Row) (c : String) :
    (r.map (fun p => (p.1, fill0 p.2))).lookup c = (r.lookup c).map fill0 := by
  induction r with
  | nil => rfl
  | cons p r ih =>
    obtain ⟨k, w⟩ := p
    by_cases h : c = k
    · subst h
      simp only [List.map_cons, lookup_cons_self]
      rfl
    · simp only [List.map_cons]
      rw [lookup_cons_ne _ _ _ _ h, lookup_cons_ne _ _ _ _ h, ih]

/-- `colV` after a column selection: selected columns read through. -/
lemma colV_selectRow (cols : List String) (r : Row) (c : String) (h : c ∈ cols) :
    colV (selectRow cols r) c = colV r c := by
  induction cols with
  | nil => cases h
  | cons c0 cols ih =>
    unfold selectRow
    by_cases hc : c = c0
    · subst hc
      simp only [List.map_cons]
      unfold colV
      rw [lookup_cons_self]
      rfl
    · simp only [List.map_cons]
      unfold colV
      rw [lookup_cons_ne _ _ _ _ hc]
      rcases List.mem_cons.mp h with h0 | h0
      · exact absurd h0 hc
      · exact ih h0

/-- `colV` after the rowwise `fillna` map. -/
lemma colV_fill_row (r : Row) (c : String) :
    colV (r.map (fun p => (p.1, fill0 p.2))) c = ((r.lookup c).map fill0).getD none := by
  unfold colV
  rw [lookup_fill_row]

/-- `fillna(0)` always yields a present value. -/
lemma fill0_isSome (v : Val) : (fill0 v).isSome = true := by
  cases v <;> rfl

/-- After `replace(0, np.nan)` a value is never an exact zero — so no division in
`get_X_y` ever has an exact-zero denominator. -/
lemma replace0_ne_some0 (v : Val) : replace0 v ≠ some 0 := by
  cases v with
  | none => simp [replace0]
  | some x =>
    by_cases hx : x = 0 <;> simp [replace0, hx]

/-- Column `avg_time_per_level` of the engineered row. -/
lemma colV_featRow_avg_time_per_level (r : Row) :
    colV (featRow r) "avg_time_per_level" =
      fill0 (divV (replace0 (colV r "time_spend")) (replace0 (colV r "level_start"))) := by
  simp only [featRow, mlLines, List.foldl, colV_fill_row, lookup_setCell,
    colV_setCell, reduceIte]
  rfl

/-- Column `success_rate` of the engineered row. -/
lemma colV_featRow_success_rate (r : Row) :
    colV (featRow r) "success_rate" =
      fill0 (divV (colV r "level_success") (replace0 (colV r "level_start"))) := by
  simp only [featRow, mlLines, List.foldl, colV_fill_row, lookup_setCell,
    colV_setCell, reduceIte]
  rfl

/-- Column `failure_rate` of the engineered row. -/
lemma colV_featRow_failure_rate (r : Row) :
    colV (featRow r) "failure_rate" =
      fill0 (divV (colV r "level_fail") (replace0 (colV r "level_start"))) := by
  simp only [featRow, mlLines, List.foldl, colV_fill_row, lookup_setCell,
    colV_setCell, reduceIte]
  rfl

/-- Column `coin_spend_rate` of the engineered row. -/
lemma colV_featRow_coin_spend_rate (r : Row) :
    colV (featRow r) "coin_spend_rate" =
      fill0 (divV (replace0 (colV r "coin_spend")) (replace0 (colV r "time_spend"))) := by
  simp only [featRow, mlLines, List.foldl, colV_fill_row, lookup_setCell,
    colV_setCell, reduceIte]
  rfl

/-- Column `booster_spend_rate` of the engineered row. -/
lemma colV_featRow_booster_spend_rate (r : Row) :
    colV (featRow r) "booster_spend_rate" =
      fill0 (divV (colV r "booster_spend") (replace0 (colV r "time_spend"))) := by
  simp only [featRow, mlLines, List.foldl, colV_fill_row, lookup_setCell,
    colV_setCell, reduceIte]
  rfl

/-- Column `coin_earn_rate` of the engineered row. -/
lemma colV_featRow_coin_earn_rate (r : Row) :
    colV (featRow r) "coin_earn_rate" =
      fill0 (divV (colV r "coin_earn") (replace0 (colV r "time_spend"))) := by
  simp only [featRow, mlLines, List.foldl, colV_fill_row, lookup_setCell,
    colV_setCell, reduceIte]
  rfl

/-- Column `booster_earn_rate` of the engineered row. -/
lemma colV_featRow_booster_earn_rate (r : Row) :
    colV (featRow r) "booster_earn_rate" =
      fill0 (divV (colV r "booster_earn") (replace0 (colV r "time_spend"))) := by
  simp only [featRow, mlLines, List.foldl, colV_fill_row, lookup_setCell,
    colV_setCell, reduceIte]
  rfl

/-- Column `booster_coin_ratio` of the engineered row. -/
lemma colV_featRow_booster_coin_ratio (r : Row) :
    colV (featRow r) "booster_coin_ratio" =
      fill0 (divV (colV r "booster_spend") (replace0 (colV r "coin_spend"))) := by
  simp only [featRow, mlLines, List.foldl, colV_fill_row, lookup_setCell,
    colV_setCell, reduceIte]
  rfl

/-- Column `shop_frequency` of the engineered row. -/
lemma colV_featRow_shop_frequency (r : Row) :
    colV (featRow r) "shop_frequency" =
      fill0 (divV (colV r "shop_open") (replace0 (colV r "time_spend"))) := by
  simp only [featRow, mlLines, List.foldl, colV_fill_row, lookup_setCell,
    colV_setCell, reduceIte]
  rfl

/-- C9 amended: `get_X_y` (src/ml_utils.py) handles zero denominators by
replacement and fill.  For any table whose `i`-th row has the user-metrics
schema: the nine ratio/rate features of the engineered row are always present
values (never missing/non-finite); after `replace(0, NaN)` no denominator is
ever an exact zero, so no division by zero occurs; and each ratio/rate feature
is 0 in rows where a zero-replaced column entering its own computation is 0 —
features with denominator `level_start` when `level_start = 0`, features with
numerator or denominator `time_spend` when `time_spend = 0`, and features using
`coin_spend` when `coin_spend = 0`. -/
theorem get_X_y_zero_denominator_features
    (df : DF) (i : Nat)
    (uid co ag pl nw ts cs ce lsu lf ls bs be cam ep so d30 mp : ℚ)
    (hrow : df[i]? = some (stdRow uid co ag pl nw ts cs ce lsu lf ls bs be cam ep so d30 mp)) :
    ∃ r', (get_X_y df).1[i]? = some r' ∧
      (∀ cn ∈ ["avg_time_per_level", "success_rate", "failure_rate",
        "coin_spend_rate", "booster_spend_rate", "coin_earn_rate",
        "booster_earn_rate", "booster_coin_ratio", "shop_frequency"],
        (colV r' cn).isSome = true) ∧
      (∀ v : Val, replace0 v ≠ some 0) ∧
      (ls = 0 →
        colV r' "avg_time_per_level" = some 0 ∧
        colV r' "success_rate" = some 0 ∧
        colV r' "failure_rate" = some 0) ∧
      (ts = 0 →
        colV r' "avg_time_per_level" = some 0 ∧
        colV r' "coin_spend_rate" = some 0 ∧
        colV r' "booster_spend_rate" = some 0 ∧
        colV r' "coin_earn_rate" = some 0 ∧
        colV r' "booster_earn_rate" = some 0 ∧
        colV r' "shop_frequency" = some 0) ∧
      (cs = 0 →
        colV r' "coin_spend_rate" = some 0 ∧
        colV r' "booster_coin_ratio" = some 0) := by
  refine ⟨selectRow feature_cols (featRow
      (stdRow uid co ag pl nw ts cs ce lsu lf ls bs be cam ep so d30 mp)),
    ?_, ?_, fun v => replace0_ne_some0 v, ?_, ?_, ?_⟩
  · simp [get_X_y, List.getElem?_map, hrow]
  · intro cn hcn
    fin_cases hcn
    · rw [colV_selectRow _ _ _ (by decide), colV_featRow_avg_time_per_level]
      exact fill0_isSome _
    · rw [colV_selectRow _ _ _ (by decide), colV_featRow_success_rate]
      exact fill0_isSome _
    · rw [colV_selectRow _ _ _ (by decide), colV_featRow_failure_rate]
      exact fill0_isSome _
    · rw [colV_selectRow _ _ _ (by decide), colV_featRow_coin_spend_rate]
      exact fill0_isSome _
    · rw [colV_selectRow _ _ _ (by decide), colV_featRow_booster_spend_rate]
      exact fill0_isSome _
    · rw [colV_selectRow _ _ _ (by decide), colV_featRow_coin_earn_rate]
      exact fill0_isSome _
    · rw [colV_selectRow _ _ _ (by decide), colV_featRow_booster_earn_rate]
      exact fill0_isSome _
    · rw [colV_selectRow _ _ _ (by decide), colV_featRow_booster_coin_ratio]
      exact fill0_isSome _
    · rw [colV_selectRow _ _ _ (by decide), colV_featRow_shop_frequency]
      exact fill0_isSome _
  · intro hls
    subst hls
    refine ⟨?_, ?_, ?_⟩
    · rw [colV_selectRow _ _ _ (by decide), colV_featRow_avg_time_per_level]
      simp [stdRow, colV, List.lookup, replace0, divV, fill0]
    · rw [colV_selectRow _ _ _ (by decide), colV_featRow_success_rate]
      simp [stdRow, colV, List.lookup, replace0, divV, fill0]
    · rw [colV_selectRow _ _ _ (by decide), colV_featRow_failure_rate]
      simp [stdRow, colV, List.lookup, replace0, divV, fill0]
  · intro hts
    subst hts
    refine ⟨?_, ?_, ?_, ?_, ?_, ?_⟩
    · rw [colV_selectRow _ _ _ (by decide), colV_featRow_avg_time_per_level]
      by_cases h : ls = 0 <;>
        simp [stdRow, colV, List.lookup, replace0, divV, fill0, h]
    · rw [colV_selectRow _ _ _ (by decide), colV_featRow_coin_spend_rate]
      simp [stdRow, colV, List.lookup, replace0, divV, fill0]
    · rw [colV_selectRow _ _ _ (by decide), colV_featRow_booster_spend_rate]
      simp [stdRow, colV, List.lookup, replace0, divV, fill0]
    · rw [colV_selectRow _ _ _ (by decide), colV_featRow_coin_earn_rate]
      simp [stdRow, colV, List.lookup, replace0, divV, fill0]
    · rw [colV_selectRow _ _ _ (by decide), colV_featRow_booster_earn_rate]
      simp [stdRow, colV, List.lookup, replace0, divV, fill0]
    · rw [colV_selectRow _ _ _ (by decide), colV_featRow_shop_frequency]
      simp [stdRow, colV, List.lookup, replace0, divV, fill0]
  · intro hcs
    subst hcs
    refine ⟨?_, ?_⟩
    · rw [colV_selectRow _ _ _ (by decide), colV_featRow_coin_spend_rate]
      by_cases h : ts = 0 <;>
        simp [stdRow, colV, List.lookup, replace0, divV, fill0, h]
    · rw [colV_selectRow _ _ _ (by decide), colV_featRow_booster_coin_ratio]
      simp [stdRow, colV, List.lookup, replace0, divV, fill0]

/-- C9 as stated is false: it asks that every one of the nine ratio/rate
features be 0 in any row where `level_start`, `time_spend`, or `coin_spend` is
0.  Counterexample: a row with `level_start = 0` but `time_spend = 1`,
`coin_spend = 1`, `coin_earn = 2` — a "such row" — gets
`coin_earn_rate = coin_earn / time_spend = 2`, not 0. -/
theorem get_X_y_not_all_features_zero_counterexample :
    colV (stdRow 0 0 0 0 0 1 1 2 0 0 0 0 0 0 0 0 0 0) "level_start" = some 0 ∧
    colV ((get_X_y [stdRow 0 0 0 0 0 1 1 2 0 0 0 0 0 0 0 0 0 0]).1.getD 0 [])
        "coin_earn_rate" = some 2 ∧
    (some (2 : ℚ) : Val) ≠ some 0 := by
  refine ⟨rfl, ?_, by decide⟩
  have h1 : (get_X_y [stdRow 0 0 0 0 0 1 1 2 0 0 0 0 0 0 0 0 0 0]).1.getD 0 []
      = selectRow feature_cols (featRow (stdRow 0 0 0 0 0 1 1 2 0 0 0 0 0 0 0 0 0 0)) := rfl
  rw [h1, colV_selectRow _ _ _ (by decide), colV_featRow_coin_earn_rate]
  simp [stdRow, colV, List.lookup, replace0, divV, fill0]

/-- Witness for the amended C9 at the all-zeros row. -/
theorem get_X_y_zero_denominator_features_witness :
    ∃ r', (get_X_y [stdRow 0 0 0 0 0 0 0 0 0 0 0 0 0 0 0 0 0 0]).1[0]? = some r' ∧
      (∀ cn ∈ ["avg_time_per_level", "success_rate", "failure_rate",
        "coin_spend_rate", "booster_spend_rate", "coin_earn_rate",
        "booster_earn_rate", "booster_coin_ratio", "shop_frequency"],
        (colV r' cn).isSome = true) ∧
      (∀ v : Val, replace0 v ≠ some 0) ∧
      ((0 : ℚ) = 0 →
        colV r' "avg_time_per_level" = some 0 ∧
        colV r' "success_rate" = some 0 ∧
        colV r' "failure_rate" = some 0) ∧
      ((0 : ℚ) = 0 →
        colV r' "avg_time_per_level" = some 0 ∧
        colV r' "coin_spend_rate" = some 0 ∧
        colV r' "booster_spend_rate" = some 0 ∧
        colV r' "coin_earn_rate" = some 0 ∧
        colV r' "booster_earn_rate" = some 0 ∧
        colV r' "shop_frequency" = some 0) ∧
      ((0 : ℚ) = 0 →
        colV r' "coin_spend_rate" = some 0 ∧
        colV r' "booster_coin_ratio" = some 0) :=
  get_X_y_zero_denominator_features [stdRow 0 0 0 0 0 0 0 0 0 0 0 0 0 0 0 0 0 0]
    0 0 0 0 0 0 0 0 0 0 0 0 0 0 0 0 0 0 0 rfl

/-- C8 amended: for a data-source result in which every row carries a
`d30_revenue` column and no row already carries a `made_purchase` column,
`load_data` returns the table with every row unchanged except for exactly one
appended column `made_purchase`, whose value is 1 when the row's `d30_revenue`
is greater than 0 and 0 otherwise. -/
theorem load_data_appends_made_purchase (client : Client DF) (df : DF)
    (hc : client q3UserMetricsQuery = Except.ok df)
    (hd30 : ∀ r ∈ df, (r.lookup "d30_revenue").isSome = true)
    (hmp : ∀ r ∈ df, r.lookup "made_purchase" = none) :
    load_data client = Except.ok (df.map (fun r =>
      r ++ [("made_purchase",
        if gt0 (colV r "d30_revenue") then some 1 else some 0)])) := by
  unfold load_data
  rw [hc]
  exact congrArg Except.ok (List.map_congr_left (fun r hr => by
    unfold setCell
    rw [if_neg (by rw [hmp r hr]; simp)]))

/-- Witness for the amended C8 on a two-row table. -/
theorem load_data_appends_made_purchase_witness :
    load_data (dfClient
      [[("user_id", some 1), ("d30_revenue", some 5)],
       [("user_id", some 2), ("d30_revenue", some 0)]]) = Except.ok
      (([[("user_id", some 1), ("d30_revenue", some 5)],
         [("user_id", some 2), ("d30_revenue", some 0)]] : DF).map (fun r =>
        r ++ [("made_purchase",
          if gt0 (colV r "d30_revenue") then some 1 else some 0)])) :=
  load_data_appends_made_purchase _ _ rfl (by decide) (by decide)

/-- C8 as stated is false on a data-source result that already carries a
`made_purchase` column: the pandas column assignment overwrites it in place, so
no column is added and a pre-existing column's values change.  The input row
`[d30_revenue ↦ 5, made_purchase ↦ 7]` comes back as
`[d30_revenue ↦ 5, made_purchase ↦ 1]`: still two cells, with the pre-existing
`made_purchase` changed from 7 to 1. -/
theorem load_data_overwrites_counterexample :
    load_data (dfClient [[("d30_revenue", some 5), ("made_purchase", some 7)]])
      = Except.ok [[("d30_revenue", some 5), ("made_purchase", some 1)]] ∧
    ([("d30_revenue", (some 5 : Val)), ("made_purchase", some 1)].length = 2) ∧
    colV [("d30_revenue", (some 5 : Val)), ("made_purchase", some 7)] "made_purchase"
      = some 7 ∧
    colV [("d30_revenue", (some 5 : Val)), ("made_purchase", some 1)] "made_purchase"
      = some 1 := by
  refine ⟨?_, rfl, rfl, rfl⟩
  simp [load_data, dfClient, setCell, colV, List.lookup, gt0]

/-- Reading below the end of an extended heap is unaffected by the extension. -/
lemma hread_append_lt (h : Heap) (d : DF) (r : Ref) (hr : r < h.length) :
    hread (h ++ [d]) r = hread h r := by
  unfold hread
  exact List.getD_append _ _ _ _ hr

/-- Reading a freshly allocated object. -/
lemma hread_append_self (h : Heap) (d : DF) : hread (h ++ [d]) h.length = d := by
  unfold hread
  rw [List.getD_append_right _ _ _ _ (le_refl _)]
  simp

/-- Writing one object leaves every other object unchanged. -/
lemma hread_hwrite_ne (h : Heap) (r r' : Ref) (d : DF) (hne : r' ≠ r) :
    hread (hwrite h r d) r' = hread h r' := by
  induction h generalizing r r' with
  | nil => rfl
  | cons a t ih =>
    cases r with
    | zero =>
      cases r' with
      | zero => exact absurd rfl hne
      | succ k => rfl
    | succ m =>
      cases r' with
      | zero => rfl
      | succ k => exact ih m k (fun hh => hne (by rw [hh]))

/-- Writing preserves the number of allocated objects. -/
lemma hwrite_length (h : Heap) (r : Ref) (d : DF) :
    (hwrite h r d).length = h.length := by
  simp [hwrite]

/-- The in-place column operations only touch the object they are applied to. -/
lemma applyLines_hread_ne (fs : List (Row → Row)) (h : Heap) (df r' : Ref)
    (hne : r' ≠ df) :
    hread (applyLines h df fs) r' = hread h r' := by
  induction fs generalizing h with
  | nil => rfl
  | cons f fs ih =>
    show hread (applyLines (hwrite h df ((hread h df).map f)) df fs) r' = hread h r'
    rw [ih, hread_hwrite_ne _ _ _ _ hne]

/-- The in-place column operations preserve the number of allocated objects. -/
lemma applyLines_length (fs : List (Row → Row)) (h : Heap) (df : Ref) :
    (applyLines h df fs).length = h.length := by
  induction fs generalizing h with
  | nil => rfl
  | cons f fs ih =>
    show (applyLines (hwrite h df ((hread h df).map f)) df fs).length = h.length
    rw [ih, hwrite_length]

/-- The q3 column assignments only touch `X`. -/
lemma q3assignFold_hread_ne (ps : List (String × (Row → Val))) (h : Heap)
    (df X r' : Ref) (hne : r' ≠ X) :
    hread (ps.foldl (fun h p => assignFromDF h df X p.1 p.2) h) r' = hread h r' := by
  induction ps generalizing h with
  | nil => rfl
  | cons p ps ih =>
    show hread (ps.foldl _ (assignFromDF h df X p.1 p.2)) r' = hread h r'
    rw [ih, assignFromDF, hread_hwrite_ne _ _ _ _ hne]

/-- C10: neither `get_X_y` variant modifies the caller's dataframe.  In
src/ml_utils.py every in-place write targets the fresh `df = df_metrics.copy()`;
in src/q3/ml_utils.py every write targets the fresh selection `X = df[[...]]`.
The object the argument reference points to is unchanged by the call. -/
theorem get_X_y_leaves_argument_unchanged (h : Heap) (dm : Nat)
    (hdm : dm < h.length) :
    hread (get_X_y_heap h dm).1 dm = hread h dm ∧
    hread (q3.get_X_y_heap h dm).1 dm = hread h dm := by
  have hne : dm ≠ h.length := Nat.ne_of_lt hdm
  constructor
  · simp only [get_X_y_heap]
    have h1 : dm < (applyLines (h ++ [hread h dm]) h.length mlLines).length := by
      rw [applyLines_length, List.length_append]
      omega
    rw [hread_append_lt _ _ _ h1, applyLines_hread_ne _ _ _ _ hne,
      hread_append_lt _ _ _ hdm]
  · simp only [q3.get_X_y_heap]
    have h2 : dm ≠ (h ++ [hread h dm]).length := by
      rw [List.length_append]
      omega
    have h3 : dm < (h ++ [hread h dm]).length := by
      rw [List.length_append]
      omega
    rw [q3assignFold_hread_ne _ _ _ _ _ h2, hread_append_lt _ _ _ h3,
      hread_append_lt _ _ _ hdm]

/-- Witness for C10 at a one-object heap. -/
theorem get_X_y_leaves_argument_unchanged_witness :
    hread (get_X_y_heap [[[("age", some 3)]]] 0).1 0
        = hread [[[("age", some 3)]]] 0 ∧
    hread (q3.get_X_y_heap [[[("age", some 3)]]] 0).1 0
        = hread [[[("age", some 3)]]] 0 :=
  get_X_y_leaves_argument_unchanged [[[("age", some 3)]]] 0 (by decide)
